import Mathlib

/-!
Shallow embedding of `src/expert_tool_ics.c` (Expert Tool ICS, a Flipper Zero
compressor-inverter starter app).  The application state is modelled as a
record; hardware side effects (PWM, GPIO pin, OTG 5V rail, notification LED)
are modelled as explicit fields.  Timers are modelled by `Option Nat` fields
holding the number of milliseconds until the next firing (`none` = timer not
running); `elapse1` advances simulated time by one millisecond, running the
timer callbacks exactly as the C callbacks do.
-/

namespace ExpertToolICS

/-- `InverterId` from the source: which inverter profile is active. -/
inductive InverterId
  | invEmbraco
  | invSamsung
deriving DecidableEq

/-- `Mode` descriptor from the source: name, PWM frequency, LED blink rate,
default auto-off seconds. -/
structure Mode where
  name : String
  freq_hz : Nat
  led_blink_hz : Nat
  default_secs : Nat
deriving DecidableEq

/-- `kModes` table from the source (indices are meaningful; do not reorder). -/
def kModes : List Mode :=
  [⟨"Stand by", 0, 0, 0⟩,
   ⟨"Low speed", 55, 1, 120⟩,
   ⟨"Mid speed", 100, 2, 60⟩,
   ⟨"Max speed", 160, 4, 30⟩]

/-- `MODE_COUNT` from the source. -/
def MODE_COUNT : Nat := kModes.length

/-- Array lookup `kModes[i]` (callers guard the index as in the source). -/
def modeAt (i : Nat) : Mode := kModes.getD i ⟨"", 0, 0, 0⟩

/-- `HELP_EMBRACO` help text lines from the source. -/
def HELP_EMBRACO : List String :=
  ["Connect wires as follows:",
   "",
   "2 (A7)    -> inverter +",
   "(usually RED wire)",
   "8 (GND)  -> inverter -",
   "(usually WHITE wire)",
   "",
   "Note:",
   "This app provides",
   "3 test speeds:",
   "",
   "Low speed:",
   "2000 RPM (VNE)",
   "1800 RPM (VEG, FMF)",
   "",
   "Mid speed:",
   "3000 RPM",
   "(VNE, VEG, FMF)",
   "",
   "Max speed:",
   "4500 RPM",
   "(VNE, VEG, FMF)",
   "",
   "Embraco compressors",
   "support many speeds",
   "with 30 RPM steps.",
   "",
   "----------------",
   "",
   "App created by",
   "Adam Gray",
   "Founder of",
   "Expert Hub",
   "experthub.app",
   "",
   "----------------",
   "",
   "Press BACK to start."]

/-- `HELP_SAMSUNG` help text lines from the source. -/
def HELP_SAMSUNG : List String := ["In development"]

/-- Help line selection by inverter (as in `draw_help` / the Help input code). -/
def helpLines (inv : InverterId) : List String :=
  match inv with
  | .invEmbraco => HELP_EMBRACO
  | .invSamsung => HELP_SAMSUNG

/-- `HELP_*_COUNT`: number of help lines for the given inverter. -/
def helpCount (inv : InverterId) : Nat := (helpLines inv).length

/-- `ScreenId` from the source. -/
inductive ScreenId
  | selectInverter
  | menu
  | help
  | settings
deriving DecidableEq

/-- Configuration of the external pin PA7: `pin_to_hiz` leaves it
disconnected, `pin_to_pp_low` drives it low (the fixed safe level). -/
inductive PinCfg
  | hiz
  | outLow
deriving DecidableEq

/-- `AppState` from the source, extended with explicit hardware state:
`pwm_freq` (frequency the PWM runs at while `pwm_running`), `pin` (PA7
configuration), `aux5v` (OTG 5V rail), `led_hw` (notification LED level).
Timer fields hold ms until the next firing; `none` means not running. -/
structure AppState where
  screen : ScreenId
  inverter : InverterId
  powered : Bool
  cursor : Nat
  first_visible : Nat
  active : Nat
  help_top_line : Nat
  limit_runtime : Bool
  arrow_captcha : Bool
  led_timer : Option Nat
  led_on : Bool
  led_hw : Bool
  pwm_running : Bool
  pwm_freq : Nat
  hint_visible : Bool
  hint_timer : Option Nat
  tick_timer : Option Nat
  off_timer : Option Nat
  remaining_ms : Nat
  timeout_expired : Bool
  pin : PinCfg
  aux5v : Bool
  exit_app : Bool
deriving DecidableEq

/-- `pwm_hw_stop_safe(&s->pwm_running)`. -/
def pwm_hw_stop_safe (s : AppState) : AppState :=
  if s.pwm_running then { s with pwm_running := false } else s

/-- `pwm_hw_start_safe(freq, &s->pwm_running)`. -/
def pwm_hw_start_safe (freq : Nat) (s : AppState) : AppState :=
  { s with pwm_running := true, pwm_freq := freq }

/-- `pin_to_hiz()`. -/
def pin_to_hiz (s : AppState) : AppState := { s with pin := .hiz }

/-- `pin_to_pp_low()`. -/
def pin_to_pp_low (s : AppState) : AppState := { s with pin := .outLow }

/-- `inverter_power_5v(inv, on)`: only Samsung touches the OTG rail. -/
def inverter_power_5v (inv : InverterId) (b : Bool) (s : AppState) : AppState :=
  if inv = .invSamsung then { s with aux5v := b } else s

/-- `power_5v_set(on)`: universal OTG rail switch. -/
def power_5v_set (b : Bool) (s : AppState) : AppState := { s with aux5v := b }

/-- `led_set(n, on)`: drive the notification LED. -/
def led_set (b : Bool) (s : AppState) : AppState := { s with led_hw := b }

/-- `led_timer_cb`: toggle the LED state and apply it. -/
def led_timer_cb (s : AppState) : AppState :=
  led_set (!s.led_on) { s with led_on := !s.led_on }

/-- `led_apply(s, blink_hz)`: tear down any blink timer, force the LED off,
then (for a nonzero rate) recreate the periodic toggle with period
`1000/(blink_hz*2)` ms clamped to at least 1 ms. -/
def led_apply (s : AppState) (blink : Nat) : AppState :=
  let s := led_set false { s with led_timer := none, led_on := false }
  if blink = 0 then s
  else
    let ms := 1000 / (blink * 2)
    let ms := if ms = 0 then 1 else ms
    { s with led_timer := some ms }

/-- `tick_timer_cb`: subtract one second from `remaining_ms`, clamped at 0. -/
def tick_timer_cb (s : AppState) : AppState :=
  if s.remaining_ms ≥ 1000 then { s with remaining_ms := s.remaining_ms - 1000 }
  else { s with remaining_ms := 0 }

/-- `off_timer_cb`: one-shot expiry handler. -/
def off_timer_cb (s : AppState) : AppState :=
  { s with remaining_ms := 0, timeout_expired := true }

/-- `stop_timers`: stop both countdown timers. -/
def stop_timers (s : AppState) : AppState :=
  { s with tick_timer := none, off_timer := none }

/-- `start_tick_timer_if_needed`: cancel, reset, then arm the countdown
timers when the gating conditions hold. -/
def start_tick_timer_if_needed (s : AppState) : AppState :=
  let s0 := { s with tick_timer := none, off_timer := none,
                     remaining_ms := 0, timeout_expired := false }
  if s0.powered = false then s0
  else if s0.limit_runtime = false then s0
  else if s0.active = 0 then s0
  else
    let secs := (modeAt s0.active).default_secs
    if secs = 0 then s0
    else { s0 with remaining_ms := secs * 1000,
                   tick_timer := some 1000,
                   off_timer := some (secs * 1000) }

/-- `apply_mode(s, idx)`. -/
def apply_mode (s : AppState) (idx : Nat) : AppState :=
  if MODE_COUNT ≤ idx then s
  else
    let s := { s with active := idx }
    let m := modeAt idx
    let s :=
      if m.freq_hz = 0 then
        let s := pwm_hw_stop_safe s
        let s := pin_to_pp_low s
        let s := stop_timers s
        { s with remaining_ms := 0, timeout_expired := false }
      else
        let s := pwm_hw_stop_safe s
        let s := pwm_hw_start_safe m.freq_hz s
        start_tick_timer_if_needed s
    led_apply s m.led_blink_hz

/-- `hint_timer_cb`: hide the hint ribbon. -/
def hint_timer_cb (s : AppState) : AppState := { s with hint_visible := false }

/-- Short BACK on SelectInverter/Menu: show the hint ribbon and (re)start the
1.5 s auto-hide one-shot timer. -/
def hint_show (s : AppState) : AppState :=
  { s with hint_visible := true, hint_timer := some 1500 }

/-- `enter_safe_menu`: the canonical return-to-safe operation. -/
def enter_safe_menu (s : AppState) : AppState :=
  let s := { s with powered := false, cursor := 0, first_visible := 0 }
  let s := pwm_hw_stop_safe s
  let s := pin_to_hiz s
  let s := power_5v_set false s
  let s := led_apply s 0
  let s := stop_timers s
  { s with remaining_ms := 0, timeout_expired := false }

/-- `enter_powered_menu_standby`: switch to the powered menu in Stand by. -/
def enter_powered_menu_standby (s : AppState) : AppState :=
  let s := { s with powered := true, cursor := 0, first_visible := 0 }
  let s := inverter_power_5v s.inverter true s
  apply_mode s 0

/-- `help_layout_params(total_lines)`: returns (lines that fit, max top line).
`CANVAS_H = 64`, top margin 10, line height 9. -/
def help_layout_params (total_lines : Nat) : Nat × Nat :=
  let ml := (64 - 10) / 9
  let ml := if ml < 1 then 1 else ml
  let mtl := if ml < total_lines then total_lines - ml else 0
  (ml, mtl)

/-- Input keys (`InputKey`). -/
inductive Key
  | Up
  | Down
  | Ok
  | Back
  | Left
  | Right
deriving DecidableEq

/-- Input event types (`InputType`). -/
inductive EvType
  | Short
  | Long
  | Repeat
  | Press
  | Release
deriving DecidableEq

/-- `ScreenSelectInverter` input handling from the main loop. -/
def handleSelectInverter (s : AppState) (k : Key) (t : EvType) : AppState :=
  if t = .Short ∨ t = .Repeat then
    if k = .Up then { s with cursor := if s.cursor = 0 then 1 else 0 }
    else if k = .Down then { s with cursor := if s.cursor = 1 then 0 else 1 }
    else if k = .Ok then
      { enter_safe_menu
          { s with inverter := if s.cursor = 0 then .invEmbraco else .invSamsung }
        with screen := .menu }
    else if k = .Back then hint_show s
    else s
  else s

/-- Row count of the Menu screen (`MODE_COUNT + 3` powered, 3 safe). -/
def menuRowTotal (powered : Bool) : Nat :=
  if powered then MODE_COUNT + 3 else 3

/-- `ScreenMenu` input handling from the main loop.  `confirm` is the boolean
returned by the blocking `show_power_on_confirm` dialog when it is shown. -/
def handleMenu (s : AppState) (k : Key) (t : EvType) (confirm : Bool) : AppState :=
  let row_total := menuRowTotal s.powered
  if t = .Short then
    if k = .Up then
      if s.cursor = 0 then
        { s with cursor := row_total - 1,
                 first_visible := if 4 < row_total then row_total - 4 else 0 }
      else
        { s with cursor := s.cursor - 1,
                 first_visible := if s.cursor - 1 < s.first_visible then s.cursor - 1
                                  else s.first_visible }
    else if k = .Down then
      if s.cursor = row_total - 1 then
        { s with cursor := 0, first_visible := 0 }
      else
        { s with cursor := s.cursor + 1,
                 first_visible := if s.first_visible + 4 ≤ s.cursor + 1 then s.cursor + 1 - 3
                                  else s.first_visible }
    else if k = .Ok then
      if s.powered then
        if s.cursor < MODE_COUNT then apply_mode s s.cursor
        else if s.cursor = MODE_COUNT then enter_safe_menu s
        else if s.cursor = MODE_COUNT + 1 then
          { s with screen := .settings, cursor := 0, first_visible := 0 }
        else
          { enter_safe_menu s with screen := .help, help_top_line := 0 }
      else
        if s.cursor = 0 then
          (if confirm then enter_powered_menu_standby s else s)
        else if s.cursor = 1 then
          { s with screen := .settings, cursor := 0, first_visible := 0 }
        else
          { s with screen := .help, help_top_line := 0 }
    else if k = .Back then hint_show s
    else s
  else s

/-- `ScreenHelp` input handling from the main loop. -/
def handleHelp (s : AppState) (k : Key) (t : EvType) : AppState :=
  if t = .Short ∨ t = .Repeat then
    if k = .Up then
      if 0 < s.help_top_line then { s with help_top_line := s.help_top_line - 1 } else s
    else if k = .Down then
      if s.help_top_line < (help_layout_params (helpCount s.inverter)).2 then
        { s with help_top_line := s.help_top_line + 1 }
      else s
    else if k = .Back then { s with screen := .menu }
    else s
  else s

/-- `ScreenSettings` input handling from the main loop; row 2 is the
non-selectable header.  `confirm` is the boolean returned by the blocking
`show_limit_alert_confirm` dialog when it is shown. -/
def settingsUpCursor (c : Nat) : Nat :=
  if c - 1 = 2 then 1 else c - 1

def settingsDownCursor (c : Nat) : Nat :=
  if c + 1 = 2 then 3 else c + 1

def handleSettings (s : AppState) (k : Key) (t : EvType) (confirm : Bool) : AppState :=
  if t = .Short then
    if k = .Up then
      if s.cursor = 0 then
        { s with cursor := 4, first_visible := 1 }
      else
        { s with cursor := settingsUpCursor s.cursor,
                 first_visible := if settingsUpCursor s.cursor < s.first_visible
                                  then settingsUpCursor s.cursor else s.first_visible }
    else if k = .Down then
      if s.cursor = 4 then
        { s with cursor := 0, first_visible := 0 }
      else
        { s with cursor := settingsDownCursor s.cursor,
                 first_visible := if s.first_visible + 4 ≤ settingsDownCursor s.cursor
                                  then settingsDownCursor s.cursor - 3 else s.first_visible }
    else if k = .Ok then
      if s.cursor = 0 then
        (if s.limit_runtime then
          (if confirm then
            { stop_timers { s with limit_runtime := false } with remaining_ms := 0 }
          else s)
        else
          start_tick_timer_if_needed { s with limit_runtime := true })
      else if s.cursor = 1 then { s with arrow_captcha := !s.arrow_captcha }
      else if s.cursor = 3 then
        (if s.inverter ≠ .invEmbraco then
          { enter_safe_menu { s with inverter := .invEmbraco } with screen := .menu }
        else s)
      else if s.cursor = 4 then
        (if s.inverter ≠ .invSamsung then
          { enter_safe_menu { s with inverter := .invSamsung } with screen := .menu }
        else s)
      else s
    else if k = .Back then { s with screen := .menu, cursor := 0, first_visible := 0 }
    else s
  else s

/-- One dequeued input event processed by the main loop (long BACK exits the
app; otherwise the per-screen switch runs). -/
def processEvent (s : AppState) (k : Key) (t : EvType) (confirm : Bool) : AppState :=
  if t = .Long ∧ k = .Back then { s with exit_app := true }
  else
    match s.screen with
    | .selectInverter => handleSelectInverter s k t
    | .menu => handleMenu s k t confirm
    | .help => handleHelp s k t
    | .settings => handleSettings s k t confirm

/-- Top-of-loop check: if `timeout_expired` was set by the one-shot expiry,
clear it and fall back to the powered Stand by menu. -/
def handleExpired (s : AppState) : AppState :=
  if s.timeout_expired then enter_powered_menu_standby { s with timeout_expired := false }
  else s

/-- One main-loop iteration that dequeues an event: the `timeout_expired`
check followed by the per-screen event processing. -/
def loopIter (s : AppState) (k : Key) (t : EvType) (confirm : Bool) : AppState :=
  processEvent (handleExpired s) k t confirm

/-- Advance the tick timer by one millisecond, running `tick_timer_cb`
(and rescheduling at the 1000 ms period) when it fires. -/
def tickStep (s : AppState) : AppState :=
  match s.tick_timer with
  | none => s
  | some t =>
      if t ≤ 1 then tick_timer_cb { s with tick_timer := some 1000 }
      else { s with tick_timer := some (t - 1) }

/-- Advance the one-shot off timer by one millisecond, running
`off_timer_cb` (and disarming it) when it fires. -/
def offStep (s : AppState) : AppState :=
  match s.off_timer with
  | none => s
  | some d =>
      if d ≤ 1 then off_timer_cb { s with off_timer := none }
      else { s with off_timer := some (d - 1) }

/-- One millisecond of simulated time for the countdown timers. -/
def elapse1 (s : AppState) : AppState := offStep (tickStep s)

/-- `n` milliseconds of simulated time. -/
def elapse (n : Nat) (s : AppState) : AppState := elapse1^[n] s

/-- The state after the initializer in `expert_tool_ics` plus the pre-loop
safety setup (`pin_to_hiz`, `power_5v_set(false)`, `led_apply(&s, 0)`). -/
def initState : AppState :=
  { screen := .selectInverter
    inverter := .invEmbraco
    powered := false
    cursor := 0
    first_visible := 0
    active := 0
    help_top_line := 0
    limit_runtime := true
    arrow_captcha := true
    led_timer := none
    led_on := false
    led_hw := false
    pwm_running := false
    pwm_freq := 0
    hint_visible := false
    hint_timer := none
    tick_timer := none
    off_timer := none
    remaining_ms := 0
    timeout_expired := false
    pin := .hiz
    aux5v := false
    exit_app := false }

/-- Run a list of main-loop iterations (key, type, dialog answer). -/
def runEvs (s : AppState) (l : List (Key × EvType × Bool)) : AppState :=
  l.foldl (fun st e => loopIter st e.1 e.2.1 e.2.2) s

/-- States the main loop can observe at the top of an iteration: the initial
state, the state after an idle iteration (time passing, then the expiry
check), and the state after an iteration that processes a dequeued event. -/
inductive ObsReach : AppState → Prop
  | init : ObsReach initState
  | stepIdle (s : AppState) (n : Nat) :
      ObsReach s → ObsReach (handleExpired (elapse n s))
  | stepEvent (s : AppState) (n : Nat) (k : Key) (t : EvType) (c : Bool) :
      ObsReach s → ObsReach (loopIter (elapse n s) k t c)

/-- Gating condition for arming the countdown (§3 invariant 4 of the spec,
read off `start_tick_timer_if_needed`). -/
def ArmCond (s : AppState) : Prop :=
  s.powered = true ∧ s.limit_runtime = true ∧ s.active ≠ 0 ∧
    (modeAt s.active).default_secs ≠ 0

instance (s : AppState) : Decidable (ArmCond s) := by
  unfold ArmCond; infer_instance

/-- Countdown-timer part of the global invariant. -/
def TimerInv (s : AppState) : Prop :=
  (s.timeout_expired = false → (s.off_timer.isSome ↔ ArmCond s)) ∧
  (s.timeout_expired = false → (s.tick_timer.isSome ↔ s.off_timer.isSome)) ∧
  (s.powered = false → s.timeout_expired = false)

/-- Help-screen part of the global invariant. -/
def HelpInv (s : AppState) : Prop :=
  (s.screen = .help → s.powered = false) ∧
  (s.screen = .help → s.help_top_line ≤ (help_layout_params (helpCount s.inverter)).2) ∧
  (s.screen = .help → s.cursor < 3)

/-- Cursor part of the global invariant: the cursor addresses a selectable
row of the current screen. -/
def CursorOk (s : AppState) : Prop :=
  (s.screen = .selectInverter → s.cursor < 2) ∧
  (s.screen = .menu → s.cursor < menuRowTotal s.powered) ∧
  (s.screen = .settings → s.cursor < 5 ∧ s.cursor ≠ 2)

/-- Global inductive invariant of the application. -/
def Inv (s : AppState) : Prop := TimerInv s ∧ HelpInv s ∧ CursorOk s

/-- Event trace exhibiting a stale help scroll offset: scroll the Embraco
help down five lines, leave Help, then switch the inverter to Samsung. -/
def staleHelpTrace : List (Key × EvType × Bool) :=
  [(.Ok, .Short, false),
   (.Down, .Short, false), (.Down, .Short, false), (.Ok, .Short, false),
   (.Down, .Short, false), (.Down, .Short, false), (.Down, .Short, false),
   (.Down, .Short, false), (.Down, .Short, false),
   (.Back, .Short, false),
   (.Up, .Short, false), (.Ok, .Short, false),
   (.Down, .Short, false), (.Down, .Short, false), (.Down, .Short, false),
   (.Ok, .Short, false)]

/-- Observable state reached by `staleHelpTrace`. -/
def staleHelpState : AppState := runEvs initState staleHelpTrace

/-- Observable state on the Help screen (select Embraco, go to Help). -/
def helpEntryState : AppState :=
  runEvs initState
    [(.Ok, .Short, false), (.Down, .Short, false), (.Down, .Short, false),
     (.Ok, .Short, false)]

/-- A powered sample state with an armed-countdown configuration. -/
def armedSample : AppState :=
  { initState with powered := true, active := 3, screen := .menu }

/-- The unpowered Menu sample state. -/
def safeMenuSample : AppState := { initState with screen := .menu }

/-- The Settings sample state (powered, limit enabled, cursor on row 0). -/
def settingsSample : AppState :=
  { initState with screen := .settings, powered := true }

/-- Conclusion of claim C1 about `apply_mode`: the zero-frequency mode stops
the signal, drives the pin to the safe low level and cancels the countdown;
a nonzero-frequency mode runs the signal at exactly the mode's frequency and
leaves the pin untouched. -/
def ApplyModeSpec (s : AppState) (m : Nat) : Prop :=
  ((modeAt m).freq_hz = 0 →
    (apply_mode s m).pwm_running = false ∧ (apply_mode s m).pin = .outLow ∧
    (apply_mode s m).tick_timer = none ∧ (apply_mode s m).off_timer = none ∧
    (apply_mode s m).remaining_ms = 0 ∧ (apply_mode s m).timeout_expired = false) ∧
  ((modeAt m).freq_hz ≠ 0 →
    (apply_mode s m).pwm_running = true ∧
    (apply_mode s m).pwm_freq = (modeAt m).freq_hz ∧
    (apply_mode s m).pin = s.pin)

/-- Conclusion of claim C9: a short BACK event only navigates (to Menu from
Help/Settings) or shows the hint overlay (on SelectInverter/Menu); every
field outside screen / cursor / window / hint state is untouched. -/
def BackFrame (s : AppState) (c : Bool) : Prop :=
  (processEvent s .Back .Short c).powered = s.powered ∧
  (processEvent s .Back .Short c).active = s.active ∧
  (processEvent s .Back .Short c).pwm_running = s.pwm_running ∧
  (processEvent s .Back .Short c).pwm_freq = s.pwm_freq ∧
  (processEvent s .Back .Short c).pin = s.pin ∧
  (processEvent s .Back .Short c).aux5v = s.aux5v ∧
  (processEvent s .Back .Short c).limit_runtime = s.limit_runtime ∧
  (processEvent s .Back .Short c).arrow_captcha = s.arrow_captcha ∧
  (processEvent s .Back .Short c).remaining_ms = s.remaining_ms ∧
  (processEvent s .Back .Short c).timeout_expired = s.timeout_expired ∧
  (processEvent s .Back .Short c).tick_timer = s.tick_timer ∧
  (processEvent s .Back .Short c).off_timer = s.off_timer ∧
  (processEvent s .Back .Short c).led_timer = s.led_timer ∧
  (processEvent s .Back .Short c).led_on = s.led_on ∧
  (processEvent s .Back .Short c).led_hw = s.led_hw ∧
  (processEvent s .Back .Short c).inverter = s.inverter ∧
  (processEvent s .Back .Short c).help_top_line = s.help_top_line ∧
  (processEvent s .Back .Short c).exit_app = s.exit_app ∧
  (processEvent s .Back .Short c).screen =
    (match s.screen with
     | .help => .menu
     | .settings => .menu
     | x => x) ∧
  (processEvent s .Back .Short c).hint_visible =
    (match s.screen with
     | .selectInverter => true
     | .menu => true
     | _ => s.hint_visible)

/-- Conclusion of claim C4: after the confirmed power-on, the state is the
powered Stand by menu with the pin forced safe, the PWM stopped, and the 5V
rail on exactly for the Samsung profile. -/
def PowerOnSpec (s : AppState) : Prop :=
  (processEvent s .Ok .Short true).powered = true ∧
  (processEvent s .Ok .Short true).cursor = 0 ∧
  (processEvent s .Ok .Short true).first_visible = 0 ∧
  (processEvent s .Ok .Short true).active = 0 ∧
  (processEvent s .Ok .Short true).pin = .outLow ∧
  (processEvent s .Ok .Short true).pwm_running = false ∧
  ((processEvent s .Ok .Short true).aux5v = true ↔ s.inverter = .invSamsung)

/-- Conclusion of claim C6: in Settings on the limit-runtime row, a declined
confirmation changes nothing at all, and a confirmed one disables the limit,
stops both countdown timers (so no expiry can fire any more) and clears
`remaining_ms`. -/
def LimitDisableSpec (s : AppState) : Prop :=
  processEvent s .Ok .Short false = s ∧
  (processEvent s .Ok .Short true).limit_runtime = false ∧
  (processEvent s .Ok .Short true).tick_timer = none ∧
  (processEvent s .Ok .Short true).off_timer = none ∧
  (processEvent s .Ok .Short true).remaining_ms = 0 ∧
  (s.timeout_expired = false →
    ∀ n, (elapse n (processEvent s .Ok .Short true)).timeout_expired = false)

/-- Conclusion of claim C5 (with `secs` the active mode's default timeout
and `A` the state right after arming): the expiry fires exactly at
`secs × 1000` ms — never earlier — setting `remaining_ms = 0` and
`timeout_expired = true` and disarming itself; and the main-loop check then
clears the flag and re-enters the powered Stand by menu. -/
def ExpirySpec (s : AppState) : Prop :=
  let secs := (modeAt s.active).default_secs
  let A := start_tick_timer_if_needed s
  (∀ k, k < secs * 1000 → (elapse k A).timeout_expired = false) ∧
  (elapse (secs * 1000) A).timeout_expired = true ∧
  (elapse (secs * 1000) A).remaining_ms = 0 ∧
  (elapse (secs * 1000) A).off_timer = none ∧
  handleExpired (elapse (secs * 1000) A) =
    enter_powered_menu_standby
      { elapse (secs * 1000) A with timeout_expired := false } ∧
  (handleExpired (elapse (secs * 1000) A)).powered = true ∧
  (handleExpired (elapse (secs * 1000) A)).active = 0 ∧
  (handleExpired (elapse (secs * 1000) A)).timeout_expired = false ∧
  (handleExpired (elapse (secs * 1000) A)).off_timer = none ∧
  (handleExpired (elapse (secs * 1000) A)).tick_timer = none

/-- Conclusion of claim C7: cursor movement wraps from the first selectable
row to the last and back on every cursor screen, and at every observable
point the cursor addresses a selectable row (in Settings never the header
row 2). -/
def CursorCyclicSpec : Prop :=
  (∀ s c, s.screen = ScreenId.selectInverter → s.cursor = 0 →
      (processEvent s .Up .Short c).cursor = 1) ∧
  (∀ s c, s.screen = ScreenId.selectInverter → s.cursor = 1 →
      (processEvent s .Down .Short c).cursor = 0) ∧
  (∀ s c, s.screen = ScreenId.menu → s.cursor = 0 →
      (processEvent s .Up .Short c).cursor = menuRowTotal s.powered - 1) ∧
  (∀ s c, s.screen = ScreenId.menu → s.cursor = menuRowTotal s.powered - 1 →
      (processEvent s .Down .Short c).cursor = 0) ∧
  (∀ s c, s.screen = ScreenId.settings → s.cursor = 0 →
      (processEvent s .Up .Short c).cursor = 4) ∧
  (∀ s c, s.screen = ScreenId.settings → s.cursor = 4 →
      (processEvent s .Down .Short c).cursor = 0) ∧
  (∀ s, ObsReach s → CursorOk s)

/-- Conclusion of the amended claim C10: whenever the Help screen is the
current screen the scroll offset is within bounds for the current profile;
every transition entering Help resets the offset to 0; up decrements only
when the offset is positive and down increments only strictly below the
maximum top line. -/
def HelpScrollAmended : Prop :=
  (∀ s, ObsReach s → s.screen = ScreenId.help →
      s.help_top_line ≤ (help_layout_params (helpCount s.inverter)).2) ∧
  (∀ s k t c, s.screen ≠ ScreenId.help →
      (processEvent s k t c).screen = ScreenId.help →
      (processEvent s k t c).help_top_line = 0) ∧
  (∀ s t c, (t = EvType.Short ∨ t = EvType.Repeat) → s.screen = ScreenId.help →
      ((0 < s.help_top_line →
          (processEvent s .Up t c).help_top_line = s.help_top_line - 1) ∧
       (¬ 0 < s.help_top_line →
          (processEvent s .Up t c).help_top_line = s.help_top_line) ∧
       (s.help_top_line < (help_layout_params (helpCount s.inverter)).2 →
          (processEvent s .Down t c).help_top_line = s.help_top_line + 1) ∧
       (¬ s.help_top_line < (help_layout_params (helpCount s.inverter)).2 →
          (processEvent s .Down t c).help_top_line = s.help_top_line)))

/-! ### Characterization lemmas for the composite operations -/

theorem pwm_hw_stop_safe_eq (s : AppState) :
    pwm_hw_stop_safe s = { s with pwm_running := false } := by
  unfold pwm_hw_stop_safe
  split
  · rfl
  · rename_i h
    cases s
    simp only [Bool.not_eq_true] at h
    simp [h]

theorem led_apply_zero (s : AppState) :
    led_apply s 0 = { s with led_timer := none, led_on := false, led_hw := false } := by
  cases s
  simp [led_apply, led_set]

theorem led_apply_pos (s : AppState) (b : Nat) (h : b ≠ 0) :
    led_apply s b =
      { s with led_timer := some (if 1000 / (b * 2) = 0 then 1 else 1000 / (b * 2)),
               led_on := false, led_hw := false } := by
  cases s
  simp [led_apply, led_set, h]

theorem enter_safe_menu_eq (s : AppState) :
    enter_safe_menu s =
      { s with powered := false, cursor := 0, first_visible := 0,
               pwm_running := false, pin := .hiz, aux5v := false,
               led_timer := none, led_on := false, led_hw := false,
               tick_timer := none, off_timer := none,
               remaining_ms := 0, timeout_expired := false } := by
  cases s
  simp [enter_safe_menu, pwm_hw_stop_safe_eq, pin_to_hiz, power_5v_set,
        led_apply_zero, stop_timers]

theorem apply_mode_zero_eq (s : AppState) :
    apply_mode s 0 =
      { s with active := 0, pwm_running := false, pin := .outLow,
               tick_timer := none, off_timer := none,
               remaining_ms := 0, timeout_expired := false,
               led_timer := none, led_on := false, led_hw := false } := by
  cases s
  simp [apply_mode, MODE_COUNT, kModes, modeAt, pwm_hw_stop_safe_eq,
        pin_to_pp_low, stop_timers, led_apply_zero]

theorem enter_powered_menu_standby_eq (s : AppState) :
    enter_powered_menu_standby s =
      { s with powered := true, cursor := 0, first_visible := 0,
               aux5v := if s.inverter = .invSamsung then true else s.aux5v,
               active := 0, pwm_running := false, pin := .outLow,
               tick_timer := none, off_timer := none,
               remaining_ms := 0, timeout_expired := false,
               led_timer := none, led_on := false, led_hw := false } := by
  cases s
  simp only [enter_powered_menu_standby, inverter_power_5v]
  split <;> simp [apply_mode_zero_eq]

theorem start_tick_arm (s : AppState) (h : ArmCond s) :
    start_tick_timer_if_needed s =
      { s with remaining_ms := (modeAt s.active).default_secs * 1000,
               timeout_expired := false,
               tick_timer := some 1000,
               off_timer := some ((modeAt s.active).default_secs * 1000) } := by
  obtain ⟨h1, h2, h3, h4⟩ := h
  cases s
  simp_all [start_tick_timer_if_needed]

theorem start_tick_noarm (s : AppState) (h : ¬ ArmCond s) :
    start_tick_timer_if_needed s =
      { s with remaining_ms := 0, timeout_expired := false,
               tick_timer := none, off_timer := none } := by
  unfold ArmCond at h
  push_neg at h
  unfold start_tick_timer_if_needed
  simp only []
  split_ifs with h1 h2 h3 h4 <;> try rfl
  simp only [Bool.not_eq_false] at h1 h2
  exact absurd (h h1 h2 h3) h4

/-! Field projections that `start_tick_timer_if_needed` leaves unchanged. -/

theorem start_tick_untouched (s : AppState) :
    (start_tick_timer_if_needed s).screen = s.screen ∧
    (start_tick_timer_if_needed s).inverter = s.inverter ∧
    (start_tick_timer_if_needed s).powered = s.powered ∧
    (start_tick_timer_if_needed s).cursor = s.cursor ∧
    (start_tick_timer_if_needed s).first_visible = s.first_visible ∧
    (start_tick_timer_if_needed s).active = s.active ∧
    (start_tick_timer_if_needed s).help_top_line = s.help_top_line ∧
    (start_tick_timer_if_needed s).limit_runtime = s.limit_runtime ∧
    (start_tick_timer_if_needed s).arrow_captcha = s.arrow_captcha ∧
    (start_tick_timer_if_needed s).led_timer = s.led_timer ∧
    (start_tick_timer_if_needed s).led_on = s.led_on ∧
    (start_tick_timer_if_needed s).led_hw = s.led_hw ∧
    (start_tick_timer_if_needed s).pwm_running = s.pwm_running ∧
    (start_tick_timer_if_needed s).pwm_freq = s.pwm_freq ∧
    (start_tick_timer_if_needed s).hint_visible = s.hint_visible ∧
    (start_tick_timer_if_needed s).hint_timer = s.hint_timer ∧
    (start_tick_timer_if_needed s).pin = s.pin ∧
    (start_tick_timer_if_needed s).aux5v = s.aux5v ∧
    (start_tick_timer_if_needed s).exit_app = s.exit_app := by
  unfold start_tick_timer_if_needed
  simp only []
  split_ifs <;> simp

theorem led_apply_untouched (s : AppState) (b : Nat) :
    (led_apply s b).screen = s.screen ∧
    (led_apply s b).inverter = s.inverter ∧
    (led_apply s b).powered = s.powered ∧
    (led_apply s b).cursor = s.cursor ∧
    (led_apply s b).first_visible = s.first_visible ∧
    (led_apply s b).active = s.active ∧
    (led_apply s b).help_top_line = s.help_top_line ∧
    (led_apply s b).limit_runtime = s.limit_runtime ∧
    (led_apply s b).arrow_captcha = s.arrow_captcha ∧
    (led_apply s b).pwm_running = s.pwm_running ∧
    (led_apply s b).pwm_freq = s.pwm_freq ∧
    (led_apply s b).hint_visible = s.hint_visible ∧
    (led_apply s b).hint_timer = s.hint_timer ∧
    (led_apply s b).tick_timer = s.tick_timer ∧
    (led_apply s b).off_timer = s.off_timer ∧
    (led_apply s b).remaining_ms = s.remaining_ms ∧
    (led_apply s b).timeout_expired = s.timeout_expired ∧
    (led_apply s b).pin = s.pin ∧
    (led_apply s b).aux5v = s.aux5v ∧
    (led_apply s b).exit_app = s.exit_app := by
  unfold led_apply led_set
  simp only []
  split_ifs <;> simp

theorem apply_mode_one_eq (s : AppState) :
    apply_mode s 1 =
      led_apply
        (start_tick_timer_if_needed
          { s with active := 1, pwm_running := true, pwm_freq := 55 }) 1 := by
  cases s
  simp [apply_mode, MODE_COUNT, kModes, modeAt, pwm_hw_stop_safe_eq, pwm_hw_start_safe]

theorem apply_mode_two_eq (s : AppState) :
    apply_mode s 2 =
      led_apply
        (start_tick_timer_if_needed
          { s with active := 2, pwm_running := true, pwm_freq := 100 }) 2 := by
  cases s
  simp [apply_mode, MODE_COUNT, kModes, modeAt, pwm_hw_stop_safe_eq, pwm_hw_start_safe]

theorem apply_mode_three_eq (s : AppState) :
    apply_mode s 3 =
      led_apply
        (start_tick_timer_if_needed
          { s with active := 3, pwm_running := true, pwm_freq := 160 }) 4 := by
  cases s
  simp [apply_mode, MODE_COUNT, kModes, modeAt, pwm_hw_stop_safe_eq, pwm_hw_start_safe]

/-! ### Claim theorems: C1, C3, C8 -/

/-- Claim C1: for every mode id `m < 4`, after `apply_mode(m)`: if mode `m`
has `pwmFrequencyHz = 0` the PWM is stopped, the pin is driven to the safe
low level, and the countdown is cancelled (`remaining_ms = 0`,
`timeout_expired = false`, both timers stopped); otherwise the signal runs
at exactly mode `m`'s frequency and the pin is left as it was (not forced
to the safe level). -/
theorem apply_mode_spec (s : AppState) (m : Nat) (hm : m < MODE_COUNT) :
    ApplyModeSpec s m := by
  have hm4 : m < 4 := hm
  unfold ApplyModeSpec
  interval_cases m
  · refine ⟨fun _ => ?_, fun h => absurd rfl h⟩
    simp [apply_mode_zero_eq]
  · refine ⟨fun h => by simp [modeAt, kModes] at h, fun _ => ?_⟩
    simp [apply_mode_one_eq, modeAt, kModes,
          (led_apply_untouched _ _).2.2.2.2.2.2.2.2.2.1,
          (led_apply_untouched _ _).2.2.2.2.2.2.2.2.2.2.1,
          (led_apply_untouched _ _).2.2.2.2.2.2.2.2.2.2.2.2.2.2.2.2.2.1,
          (start_tick_untouched _).2.2.2.2.2.2.2.2.2.2.2.2.1,
          (start_tick_untouched _).2.2.2.2.2.2.2.2.2.2.2.2.2.1,
          (start_tick_untouched _).2.2.2.2.2.2.2.2.2.2.2.2.2.2.2.2.1]
  · refine ⟨fun h => by simp [modeAt, kModes] at h, fun _ => ?_⟩
    simp [apply_mode_two_eq, modeAt, kModes,
          (led_apply_untouched _ _).2.2.2.2.2.2.2.2.2.1,
          (led_apply_untouched _ _).2.2.2.2.2.2.2.2.2.2.1,
          (led_apply_untouched _ _).2.2.2.2.2.2.2.2.2.2.2.2.2.2.2.2.2.1,
          (start_tick_untouched _).2.2.2.2.2.2.2.2.2.2.2.2.1,
          (start_tick_untouched _).2.2.2.2.2.2.2.2.2.2.2.2.2.1,
          (start_tick_untouched _).2.2.2.2.2.2.2.2.2.2.2.2.2.2.2.2.1]
  · refine ⟨fun h => by simp [modeAt, kModes] at h, fun _ => ?_⟩
    simp [apply_mode_three_eq, modeAt, kModes,
          (led_apply_untouched _ _).2.2.2.2.2.2.2.2.2.1,
          (led_apply_untouched _ _).2.2.2.2.2.2.2.2.2.2.1,
          (led_apply_untouched _ _).2.2.2.2.2.2.2.2.2.2.2.2.2.2.2.2.2.1,
          (start_tick_untouched _).2.2.2.2.2.2.2.2.2.2.2.2.1,
          (start_tick_untouched _).2.2.2.2.2.2.2.2.2.2.2.2.2.1,
          (start_tick_untouched _).2.2.2.2.2.2.2.2.2.2.2.2.2.2.2.2.1]

/-- Witness for C1 at a concrete mode id and state. -/
theorem apply_mode_spec_witness :
    3 < MODE_COUNT ∧ ApplyModeSpec initState 3 :=
  ⟨by decide, apply_mode_spec initState 3 (by decide)⟩

/-- Claim C3: `enter_safe_menu` always leaves the unpowered state with the
cursor and window reset, the PWM stopped, the pin disconnected, the 5V rail
off unconditionally, the indicator LED off with its timer torn down, and the
countdown cancelled. -/
theorem enter_safe_menu_spec (s : AppState) :
    (enter_safe_menu s).powered = false ∧ (enter_safe_menu s).cursor = 0 ∧
    (enter_safe_menu s).first_visible = 0 ∧
    (enter_safe_menu s).pwm_running = false ∧
    (enter_safe_menu s).pin = .hiz ∧ (enter_safe_menu s).aux5v = false ∧
    (enter_safe_menu s).led_hw = false ∧ (enter_safe_menu s).led_on = false ∧
    (enter_safe_menu s).led_timer = none ∧
    (enter_safe_menu s).tick_timer = none ∧
    (enter_safe_menu s).off_timer = none ∧
    (enter_safe_menu s).remaining_ms = 0 ∧
    (enter_safe_menu s).timeout_expired = false := by
  simp [enter_safe_menu_eq]

/-- Claim C8: `led_apply` with rate 0 stops the blink timer and forces the
indicator off; with a nonzero rate it recreates the toggle timer with period
`500 / rateHz` ms clamped to at least 1 ms (the indicator itself is reset to
off first in both cases). -/
theorem led_apply_spec (s : AppState) (r : Nat) :
    (led_apply s r).led_timer = (if r = 0 then none else some (max 1 (500 / r))) ∧
    (led_apply s r).led_on = false ∧ (led_apply s r).led_hw = false := by
  by_cases h : r = 0
  · subst h; simp [led_apply_zero]
  · have hdiv : 1000 / (r * 2) = 500 / r := by
      rw [mul_comm, ← Nat.div_div_eq_div_mul]
    rw [led_apply_pos s r h]
    refine ⟨?_, rfl, rfl⟩
    simp only [h, if_neg, ite_false, hdiv]
    rcases Nat.eq_zero_or_pos (500 / r) with h5 | h5
    · simp [h5]
    · simp [Nat.pos_iff_ne_zero.mp h5, Nat.max_eq_right h5]

/-! ### Elapse helper lemmas -/

theorem elapse1_none (s : AppState) (ht : s.tick_timer = none)
    (ho : s.off_timer = none) : elapse1 s = s := by
  unfold elapse1 offStep tickStep
  simp [ht, ho]

theorem elapse_none (n : Nat) (s : AppState) (ht : s.tick_timer = none)
    (ho : s.off_timer = none) : elapse n s = s := by
  induction n with
  | zero => rfl
  | succ k ih =>
      unfold elapse at ih ⊢
      rw [Function.iterate_succ_apply, elapse1_none s ht ho, ih]

/-- `tickStep` on a running tick timer. -/
theorem tickStep_some (s : AppState) (t : Nat) (h : s.tick_timer = some t) :
    tickStep s =
      if t ≤ 1 then tick_timer_cb { s with tick_timer := some 1000 }
      else { s with tick_timer := some (t - 1) } := by
  simp [tickStep, h]

/-- `offStep` on a running one-shot timer. -/
theorem offStep_some (s : AppState) (d : Nat) (h : s.off_timer = some d) :
    offStep s =
      if d ≤ 1 then off_timer_cb { s with off_timer := none }
      else { s with off_timer := some (d - 1) } := by
  simp [offStep, h]

/-- `tick_timer_cb` when at least one second remains. -/
theorem tick_timer_cb_ge (s : AppState) (h : 1000 ≤ s.remaining_ms) :
    tick_timer_cb s = { s with remaining_ms := s.remaining_ms - 1000 } := by
  unfold tick_timer_cb
  rw [if_pos h]

/-- While the one-shot is still pending (`k < T`), `k` milliseconds after
arming the timers hold exactly the expected countdown values and the expiry
flag is untouched. -/
theorem elapse_char (B : AppState) (T : Nat) (htick : B.tick_timer = some 1000)
    (hoff : B.off_timer = some T) (hrem : B.remaining_ms = T) :
    ∀ k, k < T → elapse k B =
      { B with tick_timer := some (1000 - k % 1000),
               off_timer := some (T - k),
               remaining_ms := T - 1000 * (k / 1000) } := by
  intro k
  induction k with
  | zero =>
      intro _
      unfold elapse
      rw [Function.iterate_zero, id_eq]
      norm_num
      rw [← hoff, ← hrem, ← htick]
  | succ k ih =>
      intro hk1
      have hk : k < T := Nat.lt_of_succ_lt hk1
      unfold elapse at ih ⊢
      rw [Function.iterate_succ_apply', ih hk]
      unfold elapse1
      rw [tickStep_some _ _ rfl]
      by_cases hmod : k % 1000 = 999
      · have h1 : 1000 - k % 1000 ≤ 1 := by omega
        have hge : 1000 ≤ T - 1000 * (k / 1000) := by omega
        have h2 : ¬ (T - k ≤ 1) := by omega
        rw [if_pos h1, tick_timer_cb_ge _ hge, offStep_some _ _ rfl, if_neg h2]
        simp only [AppState.mk.injEq, Option.some.injEq, and_true, true_and]
        omega
      · have h1 : ¬ (1000 - k % 1000 ≤ 1) := by omega
        have h2 : ¬ (T - k ≤ 1) := by omega
        rw [if_neg h1, offStep_some _ _ rfl, if_neg h2]
        simp only [AppState.mk.injEq, Option.some.injEq, and_true, true_and]
        omega

/-- At exactly `T` milliseconds after arming (with `T` a whole number of
seconds), the tick fires a final time and the one-shot expiry fires: the
flag is set, `remaining_ms` is cleared, and the one-shot is disarmed. -/
theorem elapse_fire (B : AppState) (T : Nat) (htick : B.tick_timer = some 1000)
    (hoff : B.off_timer = some T) (hrem : B.remaining_ms = T)
    (hmod : T % 1000 = 0) (hpos : 0 < T) :
    elapse T B =
      { B with tick_timer := some 1000, off_timer := none,
               remaining_ms := 0, timeout_expired := true } := by
  obtain ⟨U, rfl⟩ : ∃ U, T = U + 1 := ⟨T - 1, by omega⟩
  have hchar := elapse_char B (U + 1) htick hoff hrem U (by omega)
  have h999 : U % 1000 = 999 := by omega
  have hoffv : U + 1 - U = 1 := by omega
  have hdiv : U + 1 - 1000 * (U / 1000) = 1000 := by omega
  rw [h999, hoffv, hdiv] at hchar
  unfold elapse at hchar ⊢
  rw [Function.iterate_succ_apply', hchar]
  unfold elapse1
  rw [tickStep_some _ (1000 - 999) rfl, if_pos (by norm_num),
      tick_timer_cb_ge _ (by norm_num), offStep_some _ 1 rfl, if_pos (by norm_num)]
  unfold off_timer_cb
  simp only [AppState.mk.injEq, Option.some.injEq, and_true, true_and]
  try norm_num

/-! ### Claim theorems: C9, C4, C6 -/

/-- Claim C9: for every screen, a short BACK event only shows the hint
overlay (SelectInverter, Menu) or navigates back to Menu (Help, Settings);
it never changes `powered`, the active mode, the PWM state, the pin
configuration, the 5V rail, or any other non-UI field. -/
theorem back_event_frame (s : AppState) (c : Bool) : BackFrame s c := by
  unfold BackFrame
  cases hscreen : s.screen <;>
    simp [processEvent, hscreen, handleSelectInverter, handleMenu, handleHelp,
          handleSettings, hint_show]

/-- Claim C4: a confirmed power-on from the unpowered Menu (cursor on the
"Power on" row, rail off as guaranteed there) lands in the powered Stand by
menu: `powered = true`, cursor/window reset, active mode 0, pin forced to
the safe low level, PWM stopped, and the 5V rail enabled iff the Samsung
profile is active. -/
theorem power_on_spec (s : AppState) (h1 : s.screen = .menu)
    (h2 : s.powered = false) (h3 : s.cursor = 0) (h4 : s.aux5v = false) :
    PowerOnSpec s := by
  unfold PowerOnSpec
  simp [processEvent, h1, handleMenu, h2, h3, enter_powered_menu_standby_eq]
  cases hinv : s.inverter <;> simp [hinv, h4]

/-- Witness for C4 on the concrete unpowered Menu state. -/
theorem power_on_spec_witness :
    (safeMenuSample.screen = .menu ∧ safeMenuSample.powered = false ∧
     safeMenuSample.cursor = 0 ∧ safeMenuSample.aux5v = false) ∧
    PowerOnSpec safeMenuSample :=
  ⟨by decide, power_on_spec safeMenuSample rfl rfl rfl rfl⟩

/-- Claim C6: in Settings with the cursor on the limit-runtime row and the
limit enabled, a declined confirmation leaves the state completely
unchanged; a confirmed one sets `limit_runtime = false`, stops both
countdown timers and clears `remaining_ms`, after which no expiry can fire
during any amount of elapsed time. -/
theorem limit_disable_spec (s : AppState) (h1 : s.screen = .settings)
    (h2 : s.cursor = 0) (h3 : s.limit_runtime = true) :
    LimitDisableSpec s := by
  unfold LimitDisableSpec
  have hpe : processEvent s .Ok .Short true =
      { s with limit_runtime := false, tick_timer := none, off_timer := none,
               remaining_ms := 0 } := by
    simp [processEvent, h1, handleSettings, h2, h3, stop_timers]
  refine ⟨?_, ?_, ?_, ?_, ?_, ?_⟩
  · simp [processEvent, h1, handleSettings, h2, h3]
  · simp [hpe]
  · simp [hpe]
  · simp [hpe]
  · simp [hpe]
  · intro hexp n
    rw [hpe, elapse_none n _ rfl rfl]
    simpa using hexp

/-- Witness for C6 on the concrete Settings state. -/
theorem limit_disable_spec_witness :
    (settingsSample.screen = .settings ∧ settingsSample.cursor = 0 ∧
     settingsSample.limit_runtime = true) ∧
    LimitDisableSpec settingsSample :=
  ⟨by decide, limit_disable_spec settingsSample rfl rfl rfl⟩

/-- Claim C5: once the countdown is armed (the gating condition holds), the
expiry timer fires exactly `defaultTimeoutSeconds × 1000` ms later — with
`timeout_expired` still false at every earlier millisecond — its callback
sets `remaining_ms = 0` and `timeout_expired = true` and the one-shot
disarms (fires once); and the main loop's check consumes the flag exactly
once, re-entering the powered Stand by state with the flag cleared. -/
theorem expiry_spec (s : AppState) (h : ArmCond s) : ExpirySpec s := by
  have harm := start_tick_arm s h
  have hsecs : (modeAt s.active).default_secs ≠ 0 := h.2.2.2
  have htick : (start_tick_timer_if_needed s).tick_timer = some 1000 := by rw [harm]
  have hoff : (start_tick_timer_if_needed s).off_timer =
      some ((modeAt s.active).default_secs * 1000) := by rw [harm]
  have hrem : (start_tick_timer_if_needed s).remaining_ms =
      (modeAt s.active).default_secs * 1000 := by rw [harm]
  have hT0 : 0 < (modeAt s.active).default_secs * 1000 := by omega
  have hmod : ((modeAt s.active).default_secs * 1000) % 1000 = 0 := by omega
  have hfire := elapse_fire _ _ htick hoff hrem hmod hT0
  simp only [ExpirySpec]
  refine ⟨?_, ?_, ?_, ?_, ?_, ?_, ?_, ?_, ?_, ?_⟩
  · intro k hk
    rw [elapse_char _ _ htick hoff hrem k hk, harm]
  · rw [hfire]
  · rw [hfire]
  · rw [hfire]
  · rw [hfire]
    simp [handleExpired]
  · rw [hfire]
    simp [handleExpired, enter_powered_menu_standby_eq]
  · rw [hfire]
    simp [handleExpired, enter_powered_menu_standby_eq]
  · rw [hfire]
    simp [handleExpired, enter_powered_menu_standby_eq]
  · rw [hfire]
    simp [handleExpired, enter_powered_menu_standby_eq]
  · rw [hfire]
    simp [handleExpired, enter_powered_menu_standby_eq]

/-- Witness for C5 on a concrete armed configuration (Max speed, 30 s). -/
theorem expiry_spec_witness : ArmCond armedSample ∧ ExpirySpec armedSample :=
  ⟨by decide, expiry_spec armedSample (by decide)⟩

/-! ### Field lemmas used by the global-invariant proofs -/

@[simp] theorem led_apply_screen (s : AppState) (b : Nat) :
    (led_apply s b).screen = s.screen := by
  unfold led_apply led_set; split_ifs <;> rfl

@[simp] theorem led_apply_powered (s : AppState) (b : Nat) :
    (led_apply s b).powered = s.powered := by
  unfold led_apply led_set; split_ifs <;> rfl

@[simp] theorem led_apply_cursor (s : AppState) (b : Nat) :
    (led_apply s b).cursor = s.cursor := by
  unfold led_apply led_set; split_ifs <;> rfl

@[simp] theorem led_apply_fv (s : AppState) (b : Nat) :
    (led_apply s b).first_visible = s.first_visible := by
  unfold led_apply led_set; split_ifs <;> rfl

@[simp] theorem led_apply_htl (s : AppState) (b : Nat) :
    (led_apply s b).help_top_line = s.help_top_line := by
  unfold led_apply led_set; split_ifs <;> rfl

@[simp] theorem led_apply_inverter (s : AppState) (b : Nat) :
    (led_apply s b).inverter = s.inverter := by
  unfold led_apply led_set; split_ifs <;> rfl

@[simp] theorem led_apply_expired (s : AppState) (b : Nat) :
    (led_apply s b).timeout_expired = s.timeout_expired := by
  unfold led_apply led_set; split_ifs <;> rfl

@[simp] theorem start_tick_screen (s : AppState) :
    (start_tick_timer_if_needed s).screen = s.screen := by
  unfold start_tick_timer_if_needed; simp only []; split_ifs <;> rfl

@[simp] theorem start_tick_powered (s : AppState) :
    (start_tick_timer_if_needed s).powered = s.powered := by
  unfold start_tick_timer_if_needed; simp only []; split_ifs <;> rfl

@[simp] theorem start_tick_cursor (s : AppState) :
    (start_tick_timer_if_needed s).cursor = s.cursor := by
  unfold start_tick_timer_if_needed; simp only []; split_ifs <;> rfl

@[simp] theorem start_tick_fv (s : AppState) :
    (start_tick_timer_if_needed s).first_visible = s.first_visible := by
  unfold start_tick_timer_if_needed; simp only []; split_ifs <;> rfl

@[simp] theorem start_tick_htl (s : AppState) :
    (start_tick_timer_if_needed s).help_top_line = s.help_top_line := by
  unfold start_tick_timer_if_needed; simp only []; split_ifs <;> rfl

@[simp] theorem start_tick_inverter (s : AppState) :
    (start_tick_timer_if_needed s).inverter = s.inverter := by
  unfold start_tick_timer_if_needed; simp only []; split_ifs <;> rfl

@[simp] theorem start_tick_expired (s : AppState) :
    (start_tick_timer_if_needed s).timeout_expired = false := by
  unfold start_tick_timer_if_needed; simp only []; split_ifs <;> rfl

/-! ### TimerInv transport lemmas -/

theorem TimerInv_led_apply (s : AppState) (b : Nat) (h : TimerInv s) :
    TimerInv (led_apply s b) := by
  unfold led_apply led_set
  split_ifs <;> exact h

theorem TimerInv_start_tick (u : AppState) :
    TimerInv (start_tick_timer_if_needed u) := by
  by_cases hc : ArmCond u
  · rw [start_tick_arm u hc]
    refine ⟨fun _ => ?_, fun _ => by simp, fun _ => rfl⟩
    simp only [Option.isSome_some, true_iff]
    exact hc
  · rw [start_tick_noarm u hc]
    refine ⟨fun _ => ?_, fun _ => by simp, fun _ => rfl⟩
    simp only [Option.isSome_none, Bool.false_eq_true, false_iff]
    exact fun hcc => hc hcc

theorem TimerInv_apply_mode (s : AppState) (idx : Nat) (hidx : idx < MODE_COUNT) :
    TimerInv (apply_mode s idx) := by
  have h4 : idx < 4 := hidx
  interval_cases idx
  · rw [apply_mode_zero_eq]
    refine ⟨fun _ => ?_, fun _ => by simp, fun _ => rfl⟩
    simp [ArmCond]
  · rw [apply_mode_one_eq]
    exact TimerInv_led_apply _ _ (TimerInv_start_tick _)
  · rw [apply_mode_two_eq]
    exact TimerInv_led_apply _ _ (TimerInv_start_tick _)
  · rw [apply_mode_three_eq]
    exact TimerInv_led_apply _ _ (TimerInv_start_tick _)

/-- `apply_mode` leaves screen, powered flag, cursor, window, help scroll
and the inverter profile untouched, and always clears `timeout_expired` for
a valid index. -/
theorem apply_mode_keeps (s : AppState) (idx : Nat) :
    (apply_mode s idx).screen = s.screen ∧
    (apply_mode s idx).powered = s.powered ∧
    (apply_mode s idx).cursor = s.cursor ∧
    (apply_mode s idx).first_visible = s.first_visible ∧
    (apply_mode s idx).help_top_line = s.help_top_line ∧
    (apply_mode s idx).inverter = s.inverter := by
  unfold apply_mode
  split
  · simp
  · by_cases hf : (modeAt idx).freq_hz = 0 <;>
      simp [hf, pwm_hw_stop_safe_eq, pwm_hw_start_safe, pin_to_pp_low, stop_timers]

theorem apply_mode_expired (s : AppState) (idx : Nat) (hidx : idx < MODE_COUNT) :
    (apply_mode s idx).timeout_expired = false := by
  unfold apply_mode
  rw [if_neg (by omega)]
  by_cases hf : (modeAt idx).freq_hz = 0 <;>
    simp [hf, pwm_hw_stop_safe_eq, pwm_hw_start_safe, pin_to_pp_low, stop_timers]

/-- The safe menu state satisfies the global invariant whatever state it is
entered from. -/
theorem Inv_safe_menu (s : AppState) :
    Inv { enter_safe_menu s with screen := .menu } := by
  rw [enter_safe_menu_eq]
  refine ⟨⟨fun _ => ?_, fun _ => by simp, fun _ => rfl⟩, ⟨?_, ?_, ?_⟩, ⟨?_, ?_, ?_⟩⟩
  · simp [ArmCond]
  · intro hh; simp at hh
  · intro hh; simp at hh
  · intro hh; simp at hh
  · intro hh; simp at hh
  · intro _; simp [menuRowTotal, MODE_COUNT, kModes]
  · intro hh; simp at hh

/-- The initial state satisfies the global invariant. -/
theorem Inv_initState : Inv initState := by
  unfold Inv TimerInv HelpInv CursorOk
  refine ⟨⟨?_, ?_, ?_⟩, ⟨?_, ?_, ?_⟩, ⟨?_, ?_, ?_⟩⟩ <;> decide

theorem tickStep_none (s : AppState) (h : s.tick_timer = none) : tickStep s = s := by
  unfold tickStep
  rw [h]

theorem offStep_none (s : AppState) (h : s.off_timer = none) : offStep s = s := by
  unfold offStep
  rw [h]

/-- Fields `tickStep` never changes. -/
theorem tickStep_keeps (s : AppState) :
    (tickStep s).screen = s.screen ∧ (tickStep s).inverter = s.inverter ∧
    (tickStep s).powered = s.powered ∧ (tickStep s).cursor = s.cursor ∧
    (tickStep s).active = s.active ∧
    (tickStep s).limit_runtime = s.limit_runtime ∧
    (tickStep s).help_top_line = s.help_top_line ∧
    (tickStep s).off_timer = s.off_timer ∧
    (tickStep s).timeout_expired = s.timeout_expired := by
  cases hh : s.tick_timer
  · rw [tickStep_none s hh]
    simp
  · rw [tickStep_some s _ hh]
    unfold tick_timer_cb
    split_ifs <;> simp

/-- Fields `offStep` never changes. -/
theorem offStep_keeps (s : AppState) :
    (offStep s).screen = s.screen ∧ (offStep s).inverter = s.inverter ∧
    (offStep s).powered = s.powered ∧ (offStep s).cursor = s.cursor ∧
    (offStep s).active = s.active ∧
    (offStep s).limit_runtime = s.limit_runtime ∧
    (offStep s).help_top_line = s.help_top_line ∧
    (offStep s).tick_timer = s.tick_timer := by
  cases hh : s.off_timer
  · rw [offStep_none s hh]
    simp
  · rw [offStep_some s _ hh]
    unfold off_timer_cb
    split_ifs <;> simp

theorem elapse1_screen (s : AppState) : (elapse1 s).screen = s.screen := by
  unfold elapse1
  rw [(offStep_keeps _).1, (tickStep_keeps _).1]

theorem elapse1_inverter (s : AppState) : (elapse1 s).inverter = s.inverter := by
  unfold elapse1
  rw [(offStep_keeps _).2.1, (tickStep_keeps _).2.1]

theorem elapse1_powered (s : AppState) : (elapse1 s).powered = s.powered := by
  unfold elapse1
  rw [(offStep_keeps _).2.2.1, (tickStep_keeps _).2.2.1]

theorem elapse1_cursor (s : AppState) : (elapse1 s).cursor = s.cursor := by
  unfold elapse1
  rw [(offStep_keeps _).2.2.2.1, (tickStep_keeps _).2.2.2.1]

theorem elapse1_active (s : AppState) : (elapse1 s).active = s.active := by
  unfold elapse1
  rw [(offStep_keeps _).2.2.2.2.1, (tickStep_keeps _).2.2.2.2.1]

theorem elapse1_limit (s : AppState) :
    (elapse1 s).limit_runtime = s.limit_runtime := by
  unfold elapse1
  rw [(offStep_keeps _).2.2.2.2.2.1, (tickStep_keeps _).2.2.2.2.2.1]

theorem elapse1_htl (s : AppState) :
    (elapse1 s).help_top_line = s.help_top_line := by
  unfold elapse1
  rw [(offStep_keeps _).2.2.2.2.2.2.1, (tickStep_keeps _).2.2.2.2.2.2.1]

theorem elapse1_expired_true (s : AppState) (h : s.timeout_expired = true) :
    (elapse1 s).timeout_expired = true := by
  unfold elapse1
  cases hh : (tickStep s).off_timer
  · rw [offStep_none _ hh, (tickStep_keeps s).2.2.2.2.2.2.2.2]
    exact h
  · rw [offStep_some _ _ hh]
    split_ifs
    · unfold off_timer_cb
      simp
    · show (tickStep s).timeout_expired = true
      rw [(tickStep_keeps s).2.2.2.2.2.2.2.2]
      exact h

/-- One millisecond on a fully armed countdown: either the one-shot had more
than 1 ms left and stays armed with its delay decremented (everything else
that matters preserved), or it fires and sets the expiry flag. -/
theorem elapse1_armed_char (s : AppState) (tv d : Nat)
    (htv : s.tick_timer = some tv) (hod : s.off_timer = some d) :
    (1 < d → (elapse1 s).off_timer = some (d - 1) ∧
      (elapse1 s).tick_timer.isSome = true ∧
      (elapse1 s).timeout_expired = s.timeout_expired ∧
      (elapse1 s).powered = s.powered ∧
      (elapse1 s).limit_runtime = s.limit_runtime ∧
      (elapse1 s).active = s.active) ∧
    (d ≤ 1 → (elapse1 s).timeout_expired = true) := by
  have hkt := tickStep_keeps s
  have hodt : (tickStep s).off_timer = some d := by
    rw [hkt.2.2.2.2.2.2.2.1, hod]
  have htkt : (tickStep s).tick_timer.isSome = true := by
    rw [tickStep_some s tv htv]
    split_ifs
    · unfold tick_timer_cb
      split_ifs <;> simp
    · simp
  unfold elapse1
  rw [offStep_some _ d hodt]
  split_ifs with hd1
  · unfold off_timer_cb
    exact ⟨fun hdd => absurd hd1 (by omega), fun _ => rfl⟩
  · refine ⟨fun _ => ⟨rfl, ?_, ?_, ?_, ?_, ?_⟩, fun hdd => absurd hdd hd1⟩
    · show (tickStep s).tick_timer.isSome = true
      exact htkt
    · show (tickStep s).timeout_expired = s.timeout_expired
      exact hkt.2.2.2.2.2.2.2.2
    · show (tickStep s).powered = s.powered
      exact hkt.2.2.1
    · show (tickStep s).limit_runtime = s.limit_runtime
      exact hkt.2.2.2.2.2.1
    · show (tickStep s).active = s.active
      exact hkt.2.2.2.2.1

theorem Inv_elapse1 (s : AppState) (h : Inv s) : Inv (elapse1 s) := by
  obtain ⟨⟨hA, hG, hP⟩, ⟨hH1, hH2, hH3⟩, ⟨hC1, hC2, hC3⟩⟩ := h
  refine ⟨⟨?_, ?_, ?_⟩, ⟨?_, ?_, ?_⟩, ⟨?_, ?_, ?_⟩⟩
  · -- armed-iff through one millisecond
    intro hf
    by_cases hexp : s.timeout_expired = true
    · rw [elapse1_expired_true s hexp] at hf
      exact Bool.noConfusion hf
    · have hexp' : s.timeout_expired = false := by simpa using hexp
      cases hod : s.off_timer
      · have htk : s.tick_timer = none := by
          have h2 := hG hexp'
          rw [hod] at h2
          rcases hq : s.tick_timer with _ | tv
          · rfl
          · exfalso; simpa [hq] using h2
        rw [elapse1_none s htk hod]
        exact hA hexp'
      · rename_i d
        have hsome : s.off_timer.isSome = true := by simp [hod]
        have harm := (hA hexp').mp hsome
        have htk : ∃ tv, s.tick_timer = some tv := by
          have h2 := (hG hexp').mpr hsome
          exact Option.isSome_iff_exists.mp h2
        obtain ⟨tv, htv⟩ := htk
        have hchar := elapse1_armed_char s tv d htv hod
        by_cases hd1 : d ≤ 1
        · rw [hchar.2 hd1] at hf
          exact Bool.noConfusion hf
        · obtain ⟨ho', ht', he', hp', hl', ha'⟩ := hchar.1 (by omega)
          rw [ho']
          have hceq : ArmCond (elapse1 s) ↔ ArmCond s := by
            unfold ArmCond
            rw [hp', hl', ha']
          simp only [Option.isSome_some]
          exact iff_of_true trivial (hceq.mpr harm)
  · intro hf
    by_cases hexp : s.timeout_expired = true
    · rw [elapse1_expired_true s hexp] at hf
      exact Bool.noConfusion hf
    · have hexp' : s.timeout_expired = false := by simpa using hexp
      cases hod : s.off_timer
      · have htk : s.tick_timer = none := by
          have h2 := hG hexp'
          rw [hod] at h2
          rcases hq : s.tick_timer with _ | tv
          · rfl
          · exfalso; simpa [hq] using h2
        rw [elapse1_none s htk hod]
        exact hG hexp'
      · rename_i d
        have hsome : s.off_timer.isSome = true := by simp [hod]
        have htk : ∃ tv, s.tick_timer = some tv := by
          have h2 := (hG hexp').mpr hsome
          exact Option.isSome_iff_exists.mp h2
        obtain ⟨tv, htv⟩ := htk
        have hchar := elapse1_armed_char s tv d htv hod
        by_cases hd1 : d ≤ 1
        · rw [hchar.2 hd1] at hf
          exact Bool.noConfusion hf
        · obtain ⟨ho', ht', he', hp', hl', ha'⟩ := hchar.1 (by omega)
          rw [ho', ht']
          simp
  · intro hpf
    rw [elapse1_powered] at hpf
    have he := hP hpf
    have hoff : s.off_timer = none := by
      rcases hoo : s.off_timer with _ | d
      · rfl
      · exfalso
        have harm := (hA he).mp (by simp [hoo])
        rw [harm.1] at hpf
        exact Bool.noConfusion hpf
    have htk : s.tick_timer = none := by
      have h2 := hG he
      rw [hoff] at h2
      rcases hq : s.tick_timer with _ | tv
      · rfl
      · exfalso; simpa [hq] using h2
    rw [elapse1_none s htk hoff]
    exact he
  · intro hh
    rw [elapse1_screen] at hh
    rw [elapse1_powered]
    exact hH1 hh
  · intro hh
    rw [elapse1_screen] at hh
    rw [elapse1_htl, elapse1_inverter]
    exact hH2 hh
  · intro hh
    rw [elapse1_screen] at hh
    rw [elapse1_cursor]
    exact hH3 hh
  · intro hh
    rw [elapse1_screen] at hh
    rw [elapse1_cursor]
    exact hC1 hh
  · intro hh
    rw [elapse1_screen] at hh
    rw [elapse1_cursor, elapse1_powered]
    exact hC2 hh
  · intro hh
    rw [elapse1_screen] at hh
    rw [elapse1_cursor]
    exact hC3 hh

theorem Inv_elapse (n : Nat) (s : AppState) (h : Inv s) : Inv (elapse n s) := by
  induction n generalizing s with
  | zero => exact h
  | succ k ih =>
      unfold elapse at ih ⊢
      rw [Function.iterate_succ_apply]
      exact ih (elapse1 s) (Inv_elapse1 s h)

theorem Inv_handleExpired (s : AppState) (h : Inv s) : Inv (handleExpired s) := by
  unfold handleExpired
  by_cases hexp : s.timeout_expired = true
  · rw [if_pos hexp, enter_powered_menu_standby_eq]
    refine ⟨⟨fun _ => by simp [ArmCond], fun _ => by simp,
             fun hpf => by simp at hpf⟩, ⟨?_, ?_, ?_⟩, ⟨?_, ?_, ?_⟩⟩
    · intro hh
      have hef := h.1.2.2 (h.2.1.1 hh)
      rw [hef] at hexp
      exact Bool.noConfusion hexp
    · intro hh
      have hef := h.1.2.2 (h.2.1.1 hh)
      rw [hef] at hexp
      exact Bool.noConfusion hexp
    · intro hh
      have hef := h.1.2.2 (h.2.1.1 hh)
      rw [hef] at hexp
      exact Bool.noConfusion hexp
    · intro _; simp
    · intro _; simp [menuRowTotal, MODE_COUNT, kModes]
    · intro _; exact ⟨by simp, by simp⟩
  · rw [if_neg hexp]
    exact h


/-! ### Invariant preservation through the event handlers -/

theorem Inv_handleSelectInverter (s : AppState) (k : Key) (t : EvType)
    (hscr : s.screen = .selectInverter) (h : Inv s) :
    Inv (handleSelectInverter s k t) := by
  obtain ⟨hT, ⟨hH1, hH2, hH3⟩, ⟨hC1, hC2, hC3⟩⟩ := h
  unfold handleSelectInverter
  split
  case isFalse => exact ⟨hT, ⟨hH1, hH2, hH3⟩, ⟨hC1, hC2, hC3⟩⟩
  case isTrue =>
    cases k
    case Up =>
      refine ⟨hT, ⟨?_, ?_, ?_⟩, ⟨?_, ?_, ?_⟩⟩
      · intro hh; simp [hscr] at hh
      · intro hh; simp [hscr] at hh
      · intro hh; simp [hscr] at hh
      · intro _
        by_cases hc : s.cursor = 0 <;> simp [hc]
      · intro hh; simp [hscr] at hh
      · intro hh; simp [hscr] at hh
    case Down =>
      refine ⟨hT, ⟨?_, ?_, ?_⟩, ⟨?_, ?_, ?_⟩⟩
      · intro hh; simp [hscr] at hh
      · intro hh; simp [hscr] at hh
      · intro hh; simp [hscr] at hh
      · intro _
        by_cases hc : s.cursor = 1 <;> simp [hc]
      · intro hh; simp [hscr] at hh
      · intro hh; simp [hscr] at hh
    case Ok => exact Inv_safe_menu _
    case Back => exact ⟨hT, ⟨hH1, hH2, hH3⟩, ⟨hC1, hC2, hC3⟩⟩
    case Left => exact ⟨hT, ⟨hH1, hH2, hH3⟩, ⟨hC1, hC2, hC3⟩⟩
    case Right => exact ⟨hT, ⟨hH1, hH2, hH3⟩, ⟨hC1, hC2, hC3⟩⟩

theorem Inv_enter_safe_menuScreen (s : AppState) (hscr : s.screen = .menu) :
    Inv (enter_safe_menu s) := by
  rw [enter_safe_menu_eq]
  refine ⟨⟨fun _ => by simp [ArmCond], fun _ => by simp, fun _ => rfl⟩,
          ⟨?_, ?_, ?_⟩, ⟨?_, ?_, ?_⟩⟩
  · intro hh; simp [hscr] at hh
  · intro hh; simp [hscr] at hh
  · intro hh; simp [hscr] at hh
  · intro hh; simp [hscr] at hh
  · intro _; simp [menuRowTotal]
  · intro hh; simp [hscr] at hh

theorem Inv_safe_help (s : AppState) :
    Inv { enter_safe_menu s with screen := .help, help_top_line := 0 } := by
  simp only [enter_safe_menu_eq]
  refine ⟨⟨fun _ => by simp [ArmCond], fun _ => by simp, fun _ => rfl⟩,
          ⟨fun _ => rfl, fun _ => Nat.zero_le _, fun _ => by simp⟩,
          ⟨?_, ?_, ?_⟩⟩
  · intro hh; simp at hh
  · intro hh; simp at hh
  · intro hh; simp at hh

theorem Inv_enter_powered_menu (s : AppState) (hscr : s.screen = .menu) :
    Inv (enter_powered_menu_standby s) := by
  rw [enter_powered_menu_standby_eq]
  refine ⟨⟨fun _ => by simp [ArmCond], fun _ => by simp, fun hpf => by simp at hpf⟩,
          ⟨?_, ?_, ?_⟩, ⟨?_, ?_, ?_⟩⟩
  · intro hh; simp [hscr] at hh
  · intro hh; simp [hscr] at hh
  · intro hh; simp [hscr] at hh
  · intro hh; simp [hscr] at hh
  · intro _; simp [menuRowTotal, MODE_COUNT, kModes]
  · intro hh; simp [hscr] at hh

theorem Inv_settings_entry (s : AppState) (hT : TimerInv s) :
    Inv { s with screen := ScreenId.settings, cursor := 0, first_visible := 0 } := by
  refine ⟨hT, ⟨?_, ?_, ?_⟩, ⟨?_, ?_, ?_⟩⟩
  · intro hh; simp at hh
  · intro hh; simp at hh
  · intro hh; simp at hh
  · intro hh; simp at hh
  · intro hh; simp at hh
  · intro _; exact ⟨by simp, by simp⟩

theorem Inv_handleMenu (s : AppState) (k : Key) (t : EvType) (c : Bool)
    (hscr : s.screen = .menu) (h : Inv s) :
    Inv (handleMenu s k t c) := by
  obtain ⟨hT, ⟨hH1, hH2, hH3⟩, ⟨hC1, hC2, hC3⟩⟩ := h
  unfold handleMenu
  simp only []
  split
  case isFalse => exact ⟨hT, ⟨hH1, hH2, hH3⟩, ⟨hC1, hC2, hC3⟩⟩
  case isTrue =>
    by_cases hU : k = Key.Up
    · subst hU
      rw [if_pos rfl]
      by_cases h0 : s.cursor = 0
      · rw [if_pos h0]
        refine ⟨hT, ⟨?_, ?_, ?_⟩, ⟨?_, ?_, ?_⟩⟩
        · intro hh; simp [hscr] at hh
        · intro hh; simp [hscr] at hh
        · intro hh; simp [hscr] at hh
        · intro hh; simp [hscr] at hh
        · intro _
          show menuRowTotal s.powered - 1 < menuRowTotal s.powered
          cases hpow : s.powered <;> simp [menuRowTotal, hpow, MODE_COUNT, kModes]
        · intro hh; simp [hscr] at hh
      · rw [if_neg h0]
        refine ⟨hT, ⟨?_, ?_, ?_⟩, ⟨?_, ?_, ?_⟩⟩
        · intro hh; simp [hscr] at hh
        · intro hh; simp [hscr] at hh
        · intro hh; simp [hscr] at hh
        · intro hh; simp [hscr] at hh
        · intro _
          have hb := hC2 hscr
          show s.cursor - 1 < menuRowTotal s.powered
          omega
        · intro hh; simp [hscr] at hh
    · by_cases hD : k = Key.Down
      · subst hD
        rw [if_neg (by decide), if_pos rfl]
        by_cases hl : s.cursor = menuRowTotal s.powered - 1
        · rw [if_pos hl]
          refine ⟨hT, ⟨?_, ?_, ?_⟩, ⟨?_, ?_, ?_⟩⟩
          · intro hh; simp [hscr] at hh
          · intro hh; simp [hscr] at hh
          · intro hh; simp [hscr] at hh
          · intro hh; simp [hscr] at hh
          · intro _
            show 0 < menuRowTotal s.powered
            cases hpow : s.powered <;> simp [menuRowTotal, hpow, MODE_COUNT, kModes]
          · intro hh; simp [hscr] at hh
        · rw [if_neg hl]
          refine ⟨hT, ⟨?_, ?_, ?_⟩, ⟨?_, ?_, ?_⟩⟩
          · intro hh; simp [hscr] at hh
          · intro hh; simp [hscr] at hh
          · intro hh; simp [hscr] at hh
          · intro hh; simp [hscr] at hh
          · intro _
            have hb := hC2 hscr
            show s.cursor + 1 < menuRowTotal s.powered
            omega
          · intro hh; simp [hscr] at hh
      · by_cases hO : k = Key.Ok
        · subst hO
          rw [if_neg (by decide), if_neg (by decide), if_pos rfl]
          by_cases hpow : s.powered = true
          · rw [if_pos hpow]
            by_cases hm : s.cursor < MODE_COUNT
            · rw [if_pos hm]
              refine ⟨TimerInv_apply_mode s s.cursor hm, ⟨?_, ?_, ?_⟩, ⟨?_, ?_, ?_⟩⟩
              · intro hh
                rw [(apply_mode_keeps s s.cursor).1, hscr] at hh
                exact absurd hh (by decide)
              · intro hh
                rw [(apply_mode_keeps s s.cursor).1, hscr] at hh
                exact absurd hh (by decide)
              · intro hh
                rw [(apply_mode_keeps s s.cursor).1, hscr] at hh
                exact absurd hh (by decide)
              · intro hh
                rw [(apply_mode_keeps s s.cursor).1, hscr] at hh
                exact absurd hh (by decide)
              · intro _
                rw [(apply_mode_keeps s s.cursor).2.2.1,
                    (apply_mode_keeps s s.cursor).2.1]
                exact hC2 hscr
              · intro hh
                rw [(apply_mode_keeps s s.cursor).1, hscr] at hh
                exact absurd hh (by decide)
            · rw [if_neg hm]
              by_cases he : s.cursor = MODE_COUNT
              · rw [if_pos he]
                exact Inv_enter_safe_menuScreen s hscr
              · rw [if_neg he]
                by_cases hs1 : s.cursor = MODE_COUNT + 1
                · rw [if_pos hs1]
                  exact Inv_settings_entry s hT
                · rw [if_neg hs1]
                  exact Inv_safe_help s
          · rw [if_neg hpow]
            by_cases h0 : s.cursor = 0
            · rw [if_pos h0]
              by_cases hcf : c = true
              · rw [if_pos hcf]
                exact Inv_enter_powered_menu s hscr
              · rw [if_neg hcf]
                exact ⟨hT, ⟨hH1, hH2, hH3⟩, ⟨hC1, hC2, hC3⟩⟩
            · rw [if_neg h0]
              by_cases h1 : s.cursor = 1
              · rw [if_pos h1]
                exact Inv_settings_entry s hT
              · rw [if_neg h1]
                have hpf : s.powered = false := by
                  simpa using hpow
                refine ⟨hT, ⟨fun _ => hpf, fun _ => Nat.zero_le _, fun _ => ?_⟩,
                        ⟨?_, ?_, ?_⟩⟩
                · show s.cursor < 3
                  have hb := hC2 hscr
                  rw [hpf] at hb
                  simpa [menuRowTotal] using hb
                · intro hh; simp at hh
                · intro hh; simp at hh
                · intro hh; simp at hh
        · by_cases hB : k = Key.Back
          · subst hB
            rw [if_neg (by decide), if_neg (by decide), if_neg (by decide),
                if_pos rfl]
            exact ⟨hT, ⟨hH1, hH2, hH3⟩, ⟨hC1, hC2, hC3⟩⟩
          · rw [if_neg hU, if_neg hD, if_neg hO, if_neg hB]
            exact ⟨hT, ⟨hH1, hH2, hH3⟩, ⟨hC1, hC2, hC3⟩⟩

theorem Inv_handleSettings (s : AppState) (k : Key) (t : EvType) (c : Bool)
    (hscr : s.screen = .settings) (h : Inv s) :
    Inv (handleSettings s k t c) := by
  obtain ⟨hT, ⟨hH1, hH2, hH3⟩, ⟨hC1, hC2, hC3⟩⟩ := h
  unfold handleSettings
  by_cases ht : t = EvType.Short
  case neg =>
    rw [if_neg ht]
    exact ⟨hT, ⟨hH1, hH2, hH3⟩, ⟨hC1, hC2, hC3⟩⟩
  case pos =>
    rw [if_pos ht]
    by_cases hU : k = Key.Up
    · subst hU
      rw [if_pos rfl]
      by_cases h0 : s.cursor = 0
      · rw [if_pos h0]
        refine ⟨hT, ⟨?_, ?_, ?_⟩, ⟨?_, ?_, ?_⟩⟩
        · intro hh; simp [hscr] at hh
        · intro hh; simp [hscr] at hh
        · intro hh; simp [hscr] at hh
        · intro hh; simp [hscr] at hh
        · intro hh; simp [hscr] at hh
        · intro _
          exact ⟨by simp, by simp⟩
      · rw [if_neg h0]
        refine ⟨hT, ⟨?_, ?_, ?_⟩, ⟨?_, ?_, ?_⟩⟩
        · intro hh; simp [hscr] at hh
        · intro hh; simp [hscr] at hh
        · intro hh; simp [hscr] at hh
        · intro hh; simp [hscr] at hh
        · intro hh; simp [hscr] at hh
        · intro _
          have hb := hC3 hscr
          show settingsUpCursor s.cursor < 5 ∧ settingsUpCursor s.cursor ≠ 2
          unfold settingsUpCursor
          split_ifs <;> omega
    · by_cases hD : k = Key.Down
      · subst hD
        rw [if_neg (by decide), if_pos rfl]
        by_cases h4 : s.cursor = 4
        · rw [if_pos h4]
          refine ⟨hT, ⟨?_, ?_, ?_⟩, ⟨?_, ?_, ?_⟩⟩
          · intro hh; simp [hscr] at hh
          · intro hh; simp [hscr] at hh
          · intro hh; simp [hscr] at hh
          · intro hh; simp [hscr] at hh
          · intro hh; simp [hscr] at hh
          · intro _
            exact ⟨by simp, by simp⟩
        · rw [if_neg h4]
          refine ⟨hT, ⟨?_, ?_, ?_⟩, ⟨?_, ?_, ?_⟩⟩
          · intro hh; simp [hscr] at hh
          · intro hh; simp [hscr] at hh
          · intro hh; simp [hscr] at hh
          · intro hh; simp [hscr] at hh
          · intro hh; simp [hscr] at hh
          · intro _
            have hb := hC3 hscr
            show settingsDownCursor s.cursor < 5 ∧ settingsDownCursor s.cursor ≠ 2
            unfold settingsDownCursor
            split_ifs <;> omega
      · by_cases hO : k = Key.Ok
        · subst hO
          rw [if_neg (by decide), if_neg (by decide), if_pos rfl]
          by_cases h0 : s.cursor = 0
          · rw [if_pos h0]
            by_cases hlim : s.limit_runtime = true
            · rw [if_pos hlim]
              by_cases hcf : c = true
              · rw [if_pos hcf]
                refine ⟨⟨fun _ => by simp [ArmCond, stop_timers],
                         fun _ => by simp [stop_timers],
                         fun hpf => hT.2.2 hpf⟩,
                        ⟨?_, ?_, ?_⟩, ⟨?_, ?_, ?_⟩⟩
                · intro hh; simp [hscr, stop_timers] at hh
                · intro hh; simp [hscr, stop_timers] at hh
                · intro hh; simp [hscr, stop_timers] at hh
                · intro hh; simp [hscr, stop_timers] at hh
                · intro hh; simp [hscr, stop_timers] at hh
                · intro _
                  exact hC3 hscr
              · rw [if_neg hcf]
                exact ⟨hT, ⟨hH1, hH2, hH3⟩, ⟨hC1, hC2, hC3⟩⟩
            · rw [if_neg hlim]
              refine ⟨TimerInv_start_tick _, ⟨?_, ?_, ?_⟩, ⟨?_, ?_, ?_⟩⟩
              · intro hh; simp [hscr] at hh
              · intro hh; simp [hscr] at hh
              · intro hh; simp [hscr] at hh
              · intro hh; simp [hscr] at hh
              · intro hh; simp [hscr] at hh
              · intro _
                simpa using hC3 hscr
          · rw [if_neg h0]
            by_cases h1 : s.cursor = 1
            · rw [if_pos h1]
              exact ⟨hT, ⟨hH1, hH2, hH3⟩, ⟨hC1, hC2, hC3⟩⟩
            · rw [if_neg h1]
              by_cases h3 : s.cursor = 3
              · rw [if_pos h3]
                split
                · exact Inv_safe_menu _
                · exact ⟨hT, ⟨hH1, hH2, hH3⟩, ⟨hC1, hC2, hC3⟩⟩
              · rw [if_neg h3]
                by_cases h4 : s.cursor = 4
                · rw [if_pos h4]
                  split
                  · exact Inv_safe_menu _
                  · exact ⟨hT, ⟨hH1, hH2, hH3⟩, ⟨hC1, hC2, hC3⟩⟩
                · rw [if_neg h4]
                  exact ⟨hT, ⟨hH1, hH2, hH3⟩, ⟨hC1, hC2, hC3⟩⟩
        · by_cases hB : k = Key.Back
          · subst hB
            rw [if_neg (by decide), if_neg (by decide), if_neg (by decide),
                if_pos rfl]
            refine ⟨hT, ⟨?_, ?_, ?_⟩, ⟨?_, ?_, ?_⟩⟩
            · intro hh; simp at hh
            · intro hh; simp at hh
            · intro hh; simp at hh
            · intro hh; simp at hh
            · intro _
              show (0:Nat) < menuRowTotal s.powered
              cases hpow : s.powered <;> simp [menuRowTotal, hpow, MODE_COUNT, kModes]
            · intro hh; simp at hh
          · rw [if_neg hU, if_neg hD, if_neg hO, if_neg hB]
            exact ⟨hT, ⟨hH1, hH2, hH3⟩, ⟨hC1, hC2, hC3⟩⟩

theorem Inv_handleHelp (s : AppState) (k : Key) (t : EvType)
    (hscr : s.screen = .help) (h : Inv s) :
    Inv (handleHelp s k t) := by
  obtain ⟨hT, ⟨hH1, hH2, hH3⟩, ⟨hC1, hC2, hC3⟩⟩ := h
  unfold handleHelp
  split
  case isFalse => exact ⟨hT, ⟨hH1, hH2, hH3⟩, ⟨hC1, hC2, hC3⟩⟩
  case isTrue =>
    by_cases hU : k = Key.Up
    · subst hU
      by_cases hpos : 0 < s.help_top_line
      · rw [if_pos hpos]
        refine ⟨hT, ⟨fun _ => hH1 hscr, fun _ => ?_, fun _ => hH3 hscr⟩,
                ⟨?_, ?_, ?_⟩⟩
        · have hb := hH2 hscr
          show s.help_top_line - 1 ≤ (help_layout_params (helpCount s.inverter)).2
          omega
        · intro hh; simp [hscr] at hh
        · intro hh; simp [hscr] at hh
        · intro hh; simp [hscr] at hh
      · rw [if_neg hpos]
        exact ⟨hT, ⟨hH1, hH2, hH3⟩, ⟨hC1, hC2, hC3⟩⟩
    · by_cases hD : k = Key.Down
      · subst hD
        by_cases hlt : s.help_top_line < (help_layout_params (helpCount s.inverter)).2
        · rw [if_pos hlt]
          refine ⟨hT, ⟨fun _ => hH1 hscr, fun _ => ?_, fun _ => hH3 hscr⟩,
                  ⟨?_, ?_, ?_⟩⟩
          · show s.help_top_line + 1 ≤ (help_layout_params (helpCount s.inverter)).2
            omega
          · intro hh; simp [hscr] at hh
          · intro hh; simp [hscr] at hh
          · intro hh; simp [hscr] at hh
        · rw [if_neg hlt]
          exact ⟨hT, ⟨hH1, hH2, hH3⟩, ⟨hC1, hC2, hC3⟩⟩
      · by_cases hB : k = Key.Back
        · subst hB
          rw [if_neg (by decide), if_neg (by decide), if_pos rfl]
          refine ⟨hT, ⟨?_, ?_, ?_⟩, ⟨?_, ?_, ?_⟩⟩
          · intro hh; simp at hh
          · intro hh; simp at hh
          · intro hh; simp at hh
          · intro hh; simp at hh
          · intro _
            show s.cursor < menuRowTotal s.powered
            rw [hH1 hscr]
            simpa [menuRowTotal] using hH3 hscr
          · intro hh; simp at hh
        · rw [if_neg hU, if_neg hD, if_neg hB]
          exact ⟨hT, ⟨hH1, hH2, hH3⟩, ⟨hC1, hC2, hC3⟩⟩

theorem Inv_processEvent (s : AppState) (k : Key) (t : EvType) (c : Bool)
    (h : Inv s) : Inv (processEvent s k t c) := by
  unfold processEvent
  split
  case isTrue => exact h
  case isFalse =>
    cases hscr : s.screen
    case selectInverter => exact Inv_handleSelectInverter s k t hscr h
    case menu => exact Inv_handleMenu s k t c hscr h
    case help => exact Inv_handleHelp s k t hscr h
    case settings => exact Inv_handleSettings s k t c hscr h

/-- The expiry-flag check always leaves the flag cleared. -/
theorem handleExpired_expired (s : AppState) :
    (handleExpired s).timeout_expired = false := by
  unfold handleExpired
  by_cases hexp : s.timeout_expired = true
  · rw [if_pos hexp, enter_powered_menu_standby_eq]
  · rw [if_neg hexp]
    simpa using hexp

/-- Event processing never raises the expiry flag. -/
theorem pe_expired (s : AppState) (k : Key) (t : EvType) (c : Bool)
    (h : s.timeout_expired = false) :
    (processEvent s k t c).timeout_expired = false := by
  unfold processEvent
  split
  · exact h
  · cases s.screen
    case selectInverter =>
      unfold handleSelectInverter
      split_ifs <;> first | exact h | simp [enter_safe_menu_eq]
    case menu =>
      unfold handleMenu
      simp only []
      split_ifs <;>
        first
          | exact h
          | exact apply_mode_expired _ _ (by assumption)
          | simp [enter_safe_menu_eq]
          | simp [enter_powered_menu_standby_eq]
    case help =>
      unfold handleHelp
      split_ifs <;> exact h
    case settings =>
      unfold handleSettings
      by_cases ht : t = EvType.Short
      case neg => rw [if_neg ht]; exact h
      case pos =>
        rw [if_pos ht]
        by_cases hU : k = Key.Up
        · rw [if_pos hU]
          split_ifs <;> exact h
        · rw [if_neg hU]
          by_cases hD : k = Key.Down
          · rw [if_pos hD]
            split_ifs <;> exact h
          · rw [if_neg hD]
            by_cases hO : k = Key.Ok
            · rw [if_pos hO]
              split_ifs <;> first | exact h | simp [enter_safe_menu_eq] | simp
            · rw [if_neg hO]
              by_cases hB : k = Key.Back
              · rw [if_pos hB]; exact h
              · rw [if_neg hB]; exact h

/-- Every state the main loop can observe satisfies the global invariant and
has the expiry flag consumed. -/
theorem obs_inv (s : AppState) (h : ObsReach s) :
    Inv s ∧ s.timeout_expired = false := by
  induction h with
  | init => exact ⟨Inv_initState, rfl⟩
  | stepIdle s n hs ih =>
      exact ⟨Inv_handleExpired _ (Inv_elapse n s ih.1), handleExpired_expired _⟩
  | stepEvent s n k t c hs ih =>
      refine ⟨Inv_processEvent _ k t c (Inv_handleExpired _ (Inv_elapse n s ih.1)), ?_⟩
      exact pe_expired _ k t c (handleExpired_expired _)

/-- Running a list of main-loop iterations from an observable state reaches
an observable state. -/
theorem ObsReach_runEvs (l : List (Key × EvType × Bool)) (s : AppState)
    (h : ObsReach s) : ObsReach (runEvs s l) := by
  induction l generalizing s with
  | nil => exact h
  | cons e l ih =>
      have h1 : ObsReach (loopIter s e.1 e.2.1 e.2.2) :=
        ObsReach.stepEvent s 0 e.1 e.2.1 e.2.2 h
      exact ih _ h1

/-! ### Claim theorems: C2, C7, C10 -/

/-- Claim C2: at every state the main loop observes between two events, the
countdown timers are armed (both running) exactly when `poweredFlag`,
`limitRuntimeEnabled`, a nonzero active mode and a nonzero default timeout
all hold; and when arming succeeds, `remaining_ms` is the default timeout
in milliseconds, the tick runs at a 1000 ms period and the one-shot expiry
is started with delay `remaining_ms`. -/
theorem countdown_arming_invariant :
    (∀ s, ObsReach s →
      ((s.tick_timer.isSome ∧ s.off_timer.isSome) ↔ ArmCond s)) ∧
    (∀ s, ArmCond s →
      (start_tick_timer_if_needed s).remaining_ms =
        (modeAt s.active).default_secs * 1000 ∧
      (start_tick_timer_if_needed s).tick_timer = some 1000 ∧
      (start_tick_timer_if_needed s).off_timer =
        some ((modeAt s.active).default_secs * 1000)) := by
  constructor
  · intro s hobs
    obtain ⟨⟨hA, hG, hP⟩, -, -⟩ := (obs_inv s hobs).1
    have hexp := (obs_inv s hobs).2
    constructor
    · rintro ⟨-, ho⟩
      exact (hA hexp).mp ho
    · intro hc
      have ho := (hA hexp).mpr hc
      exact ⟨(hG hexp).mpr ho, ho⟩
  · intro s hc
    rw [start_tick_arm s hc]
    exact ⟨rfl, rfl, rfl⟩

/-- Witness for C2 at the initial state and a concrete armed configuration. -/
theorem countdown_arming_invariant_witness :
    ((initState.tick_timer.isSome ∧ initState.off_timer.isSome) ↔
      ArmCond initState) ∧
    (ArmCond armedSample ∧
     ((start_tick_timer_if_needed armedSample).remaining_ms =
        (modeAt armedSample.active).default_secs * 1000 ∧
      (start_tick_timer_if_needed armedSample).tick_timer = some 1000 ∧
      (start_tick_timer_if_needed armedSample).off_timer =
        some ((modeAt armedSample.active).default_secs * 1000))) :=
  ⟨countdown_arming_invariant.1 initState ObsReach.init,
   by decide,
   countdown_arming_invariant.2 armedSample (by decide)⟩

/-- Claim C7: cursor navigation is cyclic on every cursor screen (up from
the first selectable row lands on the last, down from the last lands on the
first), and the cursor never addresses a non-selectable row at any
observable state — in particular in Settings it is never the header row 2. -/
theorem cursor_cyclic_spec : CursorCyclicSpec := by
  refine ⟨?_, ?_, ?_, ?_, ?_, ?_, ?_⟩
  · intro s c hscr hcur
    simp [processEvent, hscr, handleSelectInverter, hcur]
  · intro s c hscr hcur
    simp [processEvent, hscr, handleSelectInverter, hcur]
  · intro s c hscr hcur
    simp [processEvent, hscr, handleMenu, hcur]
  · intro s c hscr hcur
    simp [processEvent, hscr, handleMenu, hcur]
  · intro s c hscr hcur
    simp [processEvent, hscr, handleSettings, hcur]
  · intro s c hscr hcur
    simp [processEvent, hscr, handleSettings, hcur]
  · intro s hobs
    exact ((obs_inv s hobs).1).2.2

/-- Witness for C7 at the initial state. -/
theorem cursor_cyclic_spec_witness :
    (initState.screen = ScreenId.selectInverter ∧ initState.cursor = 0) ∧
    (processEvent initState .Up .Short false).cursor = 1 ∧
    CursorOk initState :=
  ⟨⟨rfl, rfl⟩, cursor_cyclic_spec.1 initState false rfl rfl,
   cursor_cyclic_spec.2.2.2.2.2.2 initState ObsReach.init⟩

/-- Counterexample to claim C10 as stated: after scrolling the Embraco help
down five lines, leaving Help, and switching the profile to Samsung in
Settings, the main loop observes a state whose stale `help_top_line = 5`
exceeds the Samsung help text's maximum top line 0. -/
theorem help_scroll_claim_counterexample :
    ObsReach staleHelpState ∧
    ¬ staleHelpState.help_top_line ≤
        (help_layout_params (helpCount staleHelpState.inverter)).2 :=
  ⟨ObsReach_runEvs staleHelpTrace initState ObsReach.init, by decide⟩

/-- Claim C10 (amended): the bound `help_top_line ≤ max top line for the
current profile` holds whenever the Help screen is the current screen;
every entry into Help resets the offset to 0; an up event decrements it
only when it is positive and a down event increments it only strictly below
the maximum top line. -/
theorem help_scroll_bounds_amended : HelpScrollAmended := by
  refine ⟨?_, ?_, ?_⟩
  · intro s hobs hscr
    exact ((obs_inv s hobs).1).2.1.2.1 hscr
  · intro s k t c hne hh
    unfold processEvent at hh ⊢
    by_cases hex : t = EvType.Long ∧ k = Key.Back
    · rw [if_pos hex] at hh ⊢
      exact absurd hh hne
    · rw [if_neg hex] at hh ⊢
      revert hh
      cases hscr : s.screen
      · intro hh
        unfold handleSelectInverter at hh
        split_ifs at hh <;> simp [hscr, hint_show, enter_safe_menu_eq] at hh
      · intro hh
        show (handleMenu s k t c).help_top_line = 0
        unfold handleMenu at hh ⊢
        simp only [] at hh ⊢
        by_cases ht : t = EvType.Short
        case neg =>
          rw [if_neg ht] at hh
          simp [hscr] at hh
        case pos =>
          rw [if_pos ht] at hh ⊢
          by_cases hU : k = Key.Up
          · rw [if_pos hU] at hh
            split_ifs at hh <;> simp [hscr] at hh
          · rw [if_neg hU] at hh ⊢
            by_cases hD : k = Key.Down
            · rw [if_pos hD] at hh
              split_ifs at hh <;> simp [hscr] at hh
            · rw [if_neg hD] at hh ⊢
              by_cases hO : k = Key.Ok
              · rw [if_pos hO] at hh ⊢
                by_cases hpow : s.powered = true
                · rw [if_pos hpow] at hh ⊢
                  by_cases hm : s.cursor < MODE_COUNT
                  · rw [if_pos hm] at hh
                    rw [(apply_mode_keeps _ _).1] at hh
                    simp [hscr] at hh
                  · rw [if_neg hm] at hh ⊢
                    by_cases he : s.cursor = MODE_COUNT
                    · rw [if_pos he] at hh
                      rw [enter_safe_menu_eq] at hh
                      simp [hscr] at hh
                    · rw [if_neg he] at hh ⊢
                      by_cases hs1 : s.cursor = MODE_COUNT + 1
                      · rw [if_pos hs1] at hh
                        simp at hh
                      · rw [if_neg hs1] at hh ⊢
                · rw [if_neg hpow] at hh ⊢
                  by_cases h0 : s.cursor = 0
                  · rw [if_pos h0] at hh
                    by_cases hcf : c = true
                    · rw [if_pos hcf] at hh
                      rw [enter_powered_menu_standby_eq] at hh
                      simp [hscr] at hh
                    · rw [if_neg hcf] at hh
                      simp [hscr] at hh
                  · rw [if_neg h0] at hh ⊢
                    by_cases h1 : s.cursor = 1
                    · rw [if_pos h1] at hh
                      simp at hh
                    · rw [if_neg h1] at hh ⊢
              · rw [if_neg hO] at hh
                by_cases hB : k = Key.Back
                · rw [if_pos hB] at hh
                  simp [hscr, hint_show] at hh
                · rw [if_neg hB] at hh
                  simp [hscr] at hh
      · intro hh
        exact absurd hscr hne
      · intro hh
        unfold handleSettings at hh
        by_cases ht : t = EvType.Short
        case neg =>
          rw [if_neg ht] at hh
          simp [hscr] at hh
        case pos =>
          rw [if_pos ht] at hh
          by_cases hU : k = Key.Up
          · rw [if_pos hU] at hh
            split_ifs at hh <;> simp [hscr] at hh
          · rw [if_neg hU] at hh
            by_cases hD : k = Key.Down
            · rw [if_pos hD] at hh
              split_ifs at hh <;> simp [hscr] at hh
            · rw [if_neg hD] at hh
              by_cases hO : k = Key.Ok
              · rw [if_pos hO] at hh
                split_ifs at hh <;>
                  simp [hscr, stop_timers, enter_safe_menu_eq] at hh
              · rw [if_neg hO] at hh
                by_cases hB : k = Key.Back
                · rw [if_pos hB] at hh
                  simp at hh
                · rw [if_neg hB] at hh
                  simp [hscr] at hh
  · intro s t c ht hscr
    have hlong : ¬ (t = EvType.Long ∧ Key.Up = Key.Back) := by
      rintro ⟨-, hk⟩
      exact Key.noConfusion hk
    have hlong2 : ¬ (t = EvType.Long ∧ Key.Down = Key.Back) := by
      rintro ⟨-, hk⟩
      exact Key.noConfusion hk
    refine ⟨?_, ?_, ?_, ?_⟩
    · intro hpos
      rcases ht with ht | ht <;> subst ht <;>
        simp [processEvent, hscr, handleHelp, hpos]
    · intro hpos
      rcases ht with ht | ht <;> subst ht <;>
        simp [processEvent, hscr, handleHelp, hpos]
    · intro hlt
      rcases ht with ht | ht <;> subst ht <;>
        simp [processEvent, hscr, handleHelp, hlt]
    · intro hlt
      rcases ht with ht | ht <;> subst ht <;>
        simp [processEvent, hscr, handleHelp, hlt]

/-- Witness for the amended C10 on a concrete observable Help state. -/
theorem help_scroll_bounds_amended_witness :
    (ObsReach helpEntryState ∧ helpEntryState.screen = ScreenId.help) ∧
    helpEntryState.help_top_line ≤
      (help_layout_params (helpCount helpEntryState.inverter)).2 :=
  ⟨⟨ObsReach_runEvs
      [(.Ok, .Short, false), (.Down, .Short, false), (.Down, .Short, false),
       (.Ok, .Short, false)] initState ObsReach.init, by decide⟩,
   help_scroll_bounds_amended.1 helpEntryState
     (ObsReach_runEvs
       [(.Ok, .Short, false), (.Down, .Short, false), (.Down, .Short, false),
        (.Ok, .Short, false)] initState ObsReach.init)
     (by decide)⟩

end ExpertToolICS
